import Mathlib

/-! ZCloud: a shallow embedding of the Express/SQLite backend.

The backend comes in two variants that share one table layout:

* `server/server.js` with `server/routes/auth.js` and `server/config/database.js`
  (identity carried in the `user-id` header, promise-wrapped database handle);
* `server.js` (JWT bearer identity, callback database handle).

Tables are lists of rows in insertion order.  Every handler is a pure function
from the store before the request to the store after it together with the list
of responses the handler sends (`res.json` calls, in order).  What the SQL
engine, the clock, the password hash, the token signer and the uuid generator
contribute is passed in explicitly:

* a statement that the engine rejects is described by a fault argument
  (`true`, or `some message`, means that this statement reports an error);
* `now` is the reading of the clock in the handler, in milliseconds since the epoch;
  `stamp` is the time at which the engine executes an insert whose `created_at` is left
  to the column default;
* `hash`, `compare`, `sign`, `uuid` stand for bcrypt, jsonwebtoken and uuid.
-/

namespace ZCloud

/-! ## Time -/

/-- Time values of a JavaScript `Date`: milliseconds since the epoch. -/
abbrev Time := Int

/-- Milliseconds per day. -/
def msPerDay : Int := 86400000

/-- Largest magnitude of a valid `Date` time value (ECMAScript `TimeClip`). -/
def maxTime : Int := 8640000000000000

/-- The expiry computation `d = new Date(); d.setDate(d.getDate() + days); d.toISOString()`
of `server.js`.  The local time zone is taken to have a fixed offset, so that one calendar
day is `msPerDay`.  `none` is the `RangeError` that `toISOString` throws on an invalid date,
which is what `setDate` leaves behind when the result is outside the `Date` range. -/
def expiresAtISO (now : Time) (days : Int) : Option Time :=
  let t := now + days * msPerDay
  if -maxTime ≤ t ∧ t ≤ maxTime then some t else none

/-- SQLite `CURRENT_TIMESTAMP`: the clock reading at whole-second resolution. -/
def currentTimestamp (now : Time) : Time := now - now % 1000

/-! ## Rows and store -/

/-- Row of table `users`. -/
structure User where
  id : Nat
  username : String
  password : String
  role : String
  email : Option String
  phone : Option String
  created_at : Time
  updated_at : Time
deriving DecidableEq, Repr

/-- Row of table `devices`. -/
structure Device where
  id : Nat
  device_name : String
  auth_key : String
  user_id : Nat
  status : String
  last_login : Option Time
  created_at : Time
deriving DecidableEq, Repr

/-- Row of table `auth_keys`. -/
structure AuthKey where
  id : Nat
  key_value : String
  user_id : Nat
  days : Int
  created_at : Time
  expires_at : Time
  is_active : Bool
deriving DecidableEq, Repr

/-- Row of table `wechat_accounts`.  The `user_id` column exists in the `server/server.js`
schema only; rows written by `server.js` leave it `NULL`. -/
structure WechatAccount where
  id : Nat
  auth_key : String
  device_auth_key : Option String
  nickname : Option String
  username : Option String
  avatar : Option String
  status : String
  last_login : Option Time
  created_at : Time
  updated_at : Time
  is_active : Bool
  qr_code_url : Option String
  user_id : Option Nat
deriving DecidableEq, Repr

/-- The database: four tables and the `sqlite_sequence` counters of the
`AUTOINCREMENT` keys. -/
structure Store where
  users : List User
  devices : List Device
  wechat_accounts : List WechatAccount
  auth_keys : List AuthKey
  seq_users : Nat
  seq_devices : Nat
  seq_wechat_accounts : Nat
  seq_auth_keys : Nat
deriving DecidableEq, Repr

/-- The store with no rows. -/
def Store.empty : Store := ⟨[], [], [], [], 0, 0, 0, 0⟩

/-- Key given by `INTEGER PRIMARY KEY AUTOINCREMENT`: one more than the largest key
in the table and the largest key ever handed out. -/
def nextId (ids : List Nat) (seq : Nat) : Nat := max (ids.foldl max 0) seq + 1

/-! ## Responses -/

/-- A user object of a JSON response: the columns a listing selects.  `password` and
`updated_at` are `none` when the column is not selected. -/
structure UserView where
  id : Nat
  username : String
  password : Option String
  role : String
  email : Option String
  phone : Option String
  created_at : Time
  updated_at : Option Time
deriving DecidableEq, Repr

/-- JSON bodies sent by the handlers, one constructor per shape. -/
inductive Body where
  /-- The body `error: msg`. -/
  | error (msg : String)
  /-- The body `message: msg`. -/
  | message (msg : String)
  /-- The body `message, userId` of a registration. -/
  | registered (msg : String) (userId : Nat)
  /-- The body `id, username, email, role, token` of `routes/auth.js` login. -/
  | session (id : Nat) (username : String) (email : Option String) (role : String)
      (token : String)
  /-- The body `token, user: (id, username, role, email)` of `server.js` login. -/
  | tokenUser (token : String) (id : Nat) (username : String) (role : String)
      (email : Option String)
  /-- The body `keys, count, days` of gen-auth-key. -/
  | keys (keys : List String) (count : ℚ) (days : Int)
  /-- The body `message, account: (id, auth_key, nickname, status, days)` of a fresh
  WeChat account. -/
  | accountCreated (msg : String) (id : Nat) (auth_key : String) (nickname : String)
      (status : String) (days : Int)
  /-- The body `message, account: (id, auth_key, device_auth_key, nickname, username,
  avatar, status)` of an account written with a supplied auth key. -/
  | accountWritten (msg : String) (id : Nat) (auth_key : String)
      (device_auth_key nickname username avatar : Option String) (status : String)
  /-- The page of the default error handler of Express (no JSON body). -/
  | errorPage
  /-- The body `message, auth_key, status` of simulate-scan and simulate-confirm, the
  latter with `device_auth_key` after a successful confirmation. -/
  | transition (msg : String) (auth_key : String) (status : String)
      (device_auth_key : Option String)
  /-- The body `message, qr_code_url, auth_key, status` of the QR request. -/
  | qrIssued (msg : String) (qr_code_url : String) (auth_key : String) (status : String)
  /-- The body `success: true, message, data` of wakeup-login; `data` is the JSON text of
  the gateway's `Data`. -/
  | wakeupOk (msg : String) (data : Option String)
  /-- The body `success: false, message, error` of wakeup-login. -/
  | wakeupError (msg : String) (error : String)
  /-- The text body of `res.sendStatus`. -/
  | plain (text : String)
  /-- A `wechat_accounts` row sent as it is stored. -/
  | account (row : WechatAccount)
  /-- An array of user objects. -/
  | userList (rows : List UserView)
deriving DecidableEq, Repr

/-- The bearer token carried by a body, if any. -/
def Body.token? : Body → Option String
  | .session _ _ _ _ t => some t
  | .tokenUser t _ _ _ _ => some t
  | _ => none

/-- One HTTP response: status code and JSON body. -/
structure Response where
  status : Nat
  body : Body
deriving DecidableEq, Repr

/-- Outcome of handling one request: the store afterwards and the responses sent. -/
structure Result where
  store : Store
  responses : List Response
deriving DecidableEq, Repr

/-- A handler that leaves the store alone and sends one response. -/
def reply (s : Store) (status : Nat) (body : Body) : Result := ⟨s, [⟨status, body⟩]⟩

/-! ## `server/server.js`: admin gate and user deletion -/

/-- The middleware `adminAuth` of `server/server.js`.  `hdr` is the `user-id` header
(`none` when absent or empty).  `none` as result means `next()` was called. -/
def adminAuth (selectFails : Bool) (s : Store) (hdr : Option Nat) : Option Response :=
  match hdr with
  | none => some ⟨401, .error "未登录"⟩
  | some userId =>
    if selectFails then some ⟨500, .error "权限验证失败"⟩
    else
      match s.users.find? (fun u => u.id = userId) with
      | none => some ⟨403, .error "需要管理员权限"⟩
      | some user =>
        if user.role ≠ "admin" then some ⟨403, .error "需要管理员权限"⟩ else none

/-- Which statements of the delete-user handler the engine rejects. -/
structure DeleteUserFaults where
  selectRole : Bool
  countAdmins : Bool
  beginTx : Bool
  deleteDevices : Bool
  deleteAccounts : Bool
  deleteKeys : Bool
  deleteUser : Bool
  commit : Bool
deriving DecidableEq, Repr

/-- No statement of the delete-user handler fails. -/
def DeleteUserFaults.ok : DeleteUserFaults :=
  ⟨false, false, false, false, false, false, false, false⟩

/-- The result of `SELECT COUNT(*) FROM users WHERE role = 'admin'`. -/
def adminCount (s : Store) : Nat := (s.users.filter (fun u => u.role = "admin")).length

/-- The statements between `BEGIN TRANSACTION` and `COMMIT` of the delete-user handler,
run in order on the working copy.  `.ok` is the committed store; `.error` carries the
working copy at the point where a statement (or `COMMIT`) throws. -/
def deleteCascade (f : DeleteUserFaults) (s : Store) (userId : Nat) : Except Store Store :=
  if f.deleteDevices then .error s
  else
    let s1 := { s with devices := s.devices.filter (fun d => d.user_id ≠ userId) }
    if f.deleteAccounts then .error s1
    else
      let s2 := { s1 with
        wechat_accounts := s1.wechat_accounts.filter (fun a => a.user_id ≠ some userId) }
      if f.deleteKeys then .error s2
      else
        let s3 := { s2 with auth_keys := s2.auth_keys.filter (fun k => k.user_id ≠ userId) }
        if f.deleteUser then .error s3
        else
          let s4 := { s3 with users := s3.users.filter (fun u => u.id ≠ userId) }
          if f.commit then .error s4 else .ok s4

/-- The handler of `app.delete('/api/admin/users/:userId')` in `server/server.js`, after
`adminAuth`.  Every exception ends in the outer `catch`, which answers 500.  The inner
`catch` runs `ROLLBACK`, which drops the working copy and puts back the image `s` taken at
`BEGIN`; SQLite reports an error from `ROLLBACK` only when the engine has already rolled
the transaction back, so the store is the image in that case too. -/
def deleteUserHandler (f : DeleteUserFaults) (s : Store) (userId : Nat) : Result :=
  let failed := reply s 500 (.error "删除用户失败")
  if f.selectRole then failed
  else
    match s.users.find? (fun u => u.id = userId) with
    | none => failed
    | some user =>
      if user.role = "admin" ∧ f.countAdmins then failed
      else if user.role = "admin" ∧ adminCount s ≤ 1 then
        reply s 400 (.error "不能删除最后一个管理员")
      else if f.beginTx then failed
      else
        match deleteCascade f s userId with
        | .ok s4 => reply s4 200 (.message "用户删除成功")
        | .error _ => failed

/-- The route `DELETE /api/admin/users/:userId` of `server/server.js`: `adminAuth`, then
the handler. -/
def deleteUserRoute (authFails : Bool) (f : DeleteUserFaults) (s : Store)
    (hdr : Option Nat) (userId : Nat) : Result :=
  match adminAuth authFails s hdr with
  | some r => ⟨s, [r]⟩
  | none => deleteUserHandler f s userId

/-! ## Login: `server/routes/auth.js` and `server.js` -/

/-- The handler `router.post('/login')` of `server/routes/auth.js` (mounted at
`/api/auth/login`).  `compare` is `bcrypt.compare`, `sign` is `jwt.sign` applied to the
payload `id, username, role`. -/
def authLogin (compare : String → String → Bool) (sign : Nat → String → String → String)
    (selectFails : Bool) (s : Store) (username password : String) : Result :=
  if selectFails then reply s 500 (.error "服务器错误")
  else
    match s.users.find? (fun u => u.username = username) with
    | none => reply s 401 (.error "用户名或密码错误")
    | some user =>
      if !compare password user.password then reply s 401 (.error "用户名或密码错误")
      else
        reply s 200 (.session user.id user.username user.email user.role
          (sign user.id user.username user.role))

/-- The handler `app.post('/api/login')` of `server.js`.  `compare` is
`bcrypt.compareSync`. -/
def apiLogin (compare : String → String → Bool) (sign : Nat → String → String → String)
    (selectFails : Bool) (s : Store) (username password : String) : Result :=
  if selectFails then reply s 500 (.error "服务器错误")
  else
    match s.users.find? (fun u => u.username = username) with
    | none => reply s 401 (.error "用户名或密码错误")
    | some user =>
      if !compare password user.password then reply s 401 (.error "用户名或密码错误")
      else
        reply s 200 (.tokenUser (sign user.id user.username user.role)
          user.id user.username user.role user.email)

/-! ## Registration: `server/routes/auth.js` -/

/-- Body of `POST /api/auth/register`: `role` is `none` when the caller sends none. -/
structure RegisterRequest where
  username : String
  password : String
  email : String
  role : Option String
deriving DecidableEq, Repr

/-- Which statements of the register handler the engine rejects, with the message of the
error. -/
structure RegisterFaults where
  selectUsername : Option String
  selectEmail : Option String
  insert : Option String
deriving DecidableEq, Repr

/-- No statement of the register handler fails. -/
def RegisterFaults.ok : RegisterFaults := ⟨none, none, none⟩

/-- The handler `router.post('/register')` of `server/routes/auth.js`.  It is mounted at
`/api/auth` (`server/server.js`, `app.use('/api/auth', authRoutes)`) ahead of every other
route, so it is the handler that answers `POST /api/auth/register`.  `hash` is
`bcrypt.hash` with `BCRYPT_ROUNDS`. -/
def authRegister (hash : String → String) (f : RegisterFaults) (now : Time) (s : Store)
    (req : RegisterRequest) : Result :=
  let role := req.role.getD "user"
  match f.selectUsername with
  | some msg => reply s 500 (.error ("注册失败: " ++ msg))
  | none =>
    match s.users.find? (fun u => u.username = req.username) with
    | some _ => reply s 400 (.error "用户名已存在")
    | none =>
      match f.selectEmail with
      | some msg => reply s 500 (.error ("注册失败: " ++ msg))
      | none =>
        match s.users.find? (fun u => u.email = some req.email) with
        | some _ => reply s 400 (.error "邮箱已被注册")
        | none =>
          match f.insert with
          | some msg => reply s 500 (.error ("注册失败: " ++ msg))
          | none =>
            let lastID := nextId (s.users.map (fun u => u.id)) s.seq_users
            let row : User :=
              { id := lastID, username := req.username, password := hash req.password,
                role := role, email := some req.email, phone := none,
                created_at := currentTimestamp now, updated_at := currentTimestamp now }
            ⟨{ s with users := s.users ++ [row], seq_users := lastID },
              [⟨201, .registered "注册成功" lastID⟩]⟩

/-! ## `server.js`: authorization keys -/

/-- JavaScript truthiness of an optional string: `undefined` and the empty string are
falsy. -/
def truthy (o : Option String) : Bool :=
  match o with
  | some v => v ≠ ""
  | none => false

/-- The statement `INSERT INTO auth_keys (key_value, user_id, days, expires_at)`.
`created_at` and `is_active` take their column defaults: `created_at` is
`CURRENT_TIMESTAMP` as the engine reads it when it executes the statement, at the time
`stamp`, which is not the clock reading of the handler that computed `expires_at`.  The
insert is rejected when the engine reports a fault or when `key_value` is already present
(`UNIQUE`). -/
def insertAuthKey (fails : Bool) (stamp : Time) (s : Store) (key_value : String)
    (user_id : Nat) (days : Int) (expires_at : Time) : Option Store :=
  if fails ∨ key_value ∈ s.auth_keys.map (fun k => k.key_value) then none
  else
    let lastID := nextId (s.auth_keys.map (fun k => k.id)) s.seq_auth_keys
    some { s with
      auth_keys := s.auth_keys ++
        [{ id := lastID, key_value := key_value, user_id := user_id, days := days,
           created_at := currentTimestamp stamp, expires_at := expires_at,
           is_active := true }]
      seq_auth_keys := lastID }

/-- Body of `POST /api/admin/gen-auth-key`; a field is `none` when the caller leaves it
out.  `count` is any JSON number. -/
structure GenAuthKeyBody where
  count : Option ℚ
  days : Option Int
deriving DecidableEq, Repr

/-- What the insert callbacks of gen-auth-key share: the store, the array `keys` and the
calls of `res.json` made so far. -/
structure GenState where
  store : Store
  keys : List String
  responses : List Response
deriving DecidableEq, Repr

/-- The `i`-th insert of gen-auth-key, executed by the engine at the time `stamp i`, and
its callback. -/
def genCallback (uuid : Nat → String) (insertFails : Nat → Bool) (stamp : Nat → Time)
    (userId : Nat) (count : ℚ) (days : Int) (expiresAt : Time) (st : GenState) (i : Nat) :
    GenState :=
  match insertAuthKey (insertFails i) (stamp i) st.store (uuid i) userId days expiresAt with
  | none => { st with responses := st.responses ++ [⟨500, .error "生成授权码失败"⟩] }
  | some s1 =>
    let keys := st.keys ++ [uuid i]
    if (keys.length : ℚ) = count then
      ⟨s1, keys, st.responses ++ [⟨200, .keys keys count days⟩]⟩
    else ⟨s1, keys, st.responses⟩

/-- The handler of `app.post('/api/admin/gen-auth-key')` in `server.js`, after
`authenticateToken` and `requireRole(['admin'])`; `userId` is `req.user.id`.  The loop
`for (i = 0; i < count; i++)` runs for the indices below `⌈count⌉₊`; `uuid i` is the token
drawn in round `i`, `now` the reading of `new Date()` in the handler (the rounds run one
after the other without yielding, and their readings are taken to be this one) and
`stamp i` the time at which the engine executes the insert queued in round `i`.  When the
expiry is not a valid date, `toISOString` throws in the first round, before any statement
is issued, and the error middleware answers.  The callbacks are taken in the order in
which the statements were issued; `responses` lists their calls of `res.json` in that
order. -/
def genAuthKey (uuid : Nat → String) (insertFails : Nat → Bool) (stamp : Nat → Time)
    (now : Time) (s : Store) (userId : Nat) (body : GenAuthKeyBody) : Result :=
  let count := body.count.getD 1
  let days := body.days.getD 30
  if ⌈count⌉₊ = 0 then ⟨s, []⟩
  else
    match expiresAtISO now days with
    | none => reply s 500 (.error "服务器内部错误")
    | some expiresAt =>
      let st := (List.range ⌈count⌉₊).foldl
        (genCallback uuid insertFails stamp userId count days expiresAt) ⟨s, [], []⟩
      ⟨st.store, st.responses⟩

/-- The handler of `app.delete('/api/admin/auth-key/:key')` in `server.js`. -/
def deleteAuthKey (deleteFails : Bool) (s : Store) (key : String) : Result :=
  if deleteFails then reply s 500 (.error "删除授权码失败")
  else if (s.auth_keys.filter (fun k => k.key_value = key)).length = 0 then
    reply s 404 (.error "授权码不存在")
  else
    ⟨{ s with auth_keys := s.auth_keys.filter (fun k => k.key_value ≠ key) },
      [⟨200, .message "删除成功"⟩]⟩

/-- The handler of `app.post('/api/admin/delay-auth-key')` in `server.js`.  An expiry
outside the `Date` range makes `toISOString` throw before the statement is issued, and the
error middleware answers. -/
def delayAuthKey (updateFails : Bool) (now : Time) (s : Store) (key : String)
    (days : Int) : Result :=
  match expiresAtISO now days with
  | none => reply s 500 (.error "服务器内部错误")
  | some expiresAt =>
    if updateFails then reply s 500 (.error "延期失败")
    else if (s.auth_keys.filter (fun k => k.key_value = key)).length = 0 then
      reply s 404 (.error "授权码不存在")
    else
      ⟨{ s with auth_keys := s.auth_keys.map (fun k =>
          if k.key_value = key then { k with days := days, expires_at := expiresAt }
          else k) },
        [⟨200, .message "延期成功"⟩]⟩

/-! ## `server.js`: creating a WeChat account -/

/-- Body of `POST /api/admin/wechat-accounts`. -/
structure AccountBody where
  nickname : Option String
  days : Option Int
  auth_key : Option String
  username : Option String
  avatar : Option String
  status : Option String
  device_auth_key : Option String
deriving DecidableEq, Repr

/-- Which statements of the create-account handler the engine rejects. -/
structure CreateAccountFaults where
  selectAccount : Bool
  updateAccount : Bool
  insertAccount : Bool
  insertKey : Bool
deriving DecidableEq, Repr

/-- The `CHECK` on `wechat_accounts.status` in the schema of `server.js`. -/
def statusAllowed (status : String) : Bool :=
  status ∈ ["online", "offline", "waiting", "scanning"]

/-- An `INSERT INTO wechat_accounts` of `server.js`: rejected on a fault, on a duplicate
`auth_key` (`UNIQUE`) or on a status outside the `CHECK`.  Returns the store and
`this.lastID`. -/
def insertWechatAccount (fails : Bool) (now : Time) (s : Store) (auth_key : String)
    (device_auth_key nickname username avatar : Option String) (status : String) :
    Option (Store × Nat) :=
  if fails ∨ auth_key ∈ s.wechat_accounts.map (fun a => a.auth_key) ∨
      ¬ statusAllowed status then none
  else
    let lastID := nextId (s.wechat_accounts.map (fun a => a.id)) s.seq_wechat_accounts
    some ({ s with
      wechat_accounts := s.wechat_accounts ++
        [{ id := lastID, auth_key := auth_key, device_auth_key := device_auth_key,
           nickname := nickname, username := username, avatar := avatar,
           status := status, last_login := none, created_at := currentTimestamp now,
           updated_at := currentTimestamp now, is_active := true, qr_code_url := none,
           user_id := none }]
      seq_wechat_accounts := lastID }, lastID)

/-- The handler of `app.post('/api/admin/wechat-accounts')` in `server.js`, after the
gate; `userId` is `req.user.id`, `uuid` the token drawn by `uuidv4()`, `now` the reading of
`new Date()` in the handler and `stamp` the time at which the engine executes the insert
of the auth key. -/
def adminCreateWechatAccount (uuid : String) (f : CreateAccountFaults) (stamp now : Time)
    (s : Store) (userId : Nat) (body : AccountBody) : Result :=
  let days := body.days.getD 30
  let status := if truthy body.status then body.status.getD "online" else "online"
  if truthy body.auth_key then
    let auth_key := body.auth_key.getD ""
    if f.selectAccount then reply s 500 (.error "查询账号失败")
    else
      match s.wechat_accounts.find? (fun a => a.auth_key = auth_key) with
      | some existingAccount =>
        if f.updateAccount ∨ ¬ statusAllowed status then
          reply s 500 (.error "更新微信账号失败")
        else
          ⟨{ s with wechat_accounts := s.wechat_accounts.map (fun a =>
              if a.auth_key = auth_key then
                { a with nickname := body.nickname, username := body.username,
                         avatar := body.avatar, status := status,
                         device_auth_key := body.device_auth_key,
                         last_login := some now, updated_at := now }
              else a) },
            [⟨200, .accountWritten "微信账号信息更新成功" existingAccount.id auth_key
              body.device_auth_key body.nickname body.username body.avatar status⟩]⟩
      | none =>
        match insertWechatAccount f.insertAccount now s auth_key body.device_auth_key
            body.nickname body.username body.avatar status with
        | none => reply s 500 (.error "创建微信账号失败")
        | some (s1, lastID) =>
          ⟨s1, [⟨200, .accountWritten "微信账号创建成功" lastID auth_key
            body.device_auth_key body.nickname body.username body.avatar status⟩]⟩
  else
    match expiresAtISO now days with
    | none => reply s 500 (.error "服务器内部错误")
    | some expiresAt =>
      match insertAuthKey f.insertKey stamp s uuid userId days expiresAt with
      | none => reply s 500 (.error "创建授权码失败")
      | some s1 =>
        let nickname := if truthy body.nickname then body.nickname.getD "" else "新微信账号"
        match insertWechatAccount f.insertAccount now s1 uuid none (some nickname) none
            none "waiting" with
        | none => reply s1 500 (.error "创建微信账号失败")
        | some (s2, lastID) =>
          ⟨s2, [⟨200, .accountCreated "微信账号创建成功" lastID uuid nickname "waiting"
            days⟩]⟩

/-! ## The key operations as a transition system -/

/-- One request to a key operation of `server.js`, with what the environment contributes
to it. -/
inductive KeyOp where
  /-- A request to gen-auth-key. -/
  | gen (uuid : Nat → String) (insertFails : Nat → Bool) (stamp : Nat → Time)
      (userId : Nat) (body : GenAuthKeyBody)
  /-- A request to create a WeChat account. -/
  | create (uuid : String) (f : CreateAccountFaults) (stamp : Time) (userId : Nat)
      (body : AccountBody)
  /-- A request to delay-auth-key. -/
  | delay (updateFails : Bool) (key : String) (days : Int)
  /-- A request to delete an auth key. -/
  | delete (deleteFails : Bool) (key : String)

/-- Running a key operation at clock reading `now`. -/
def KeyOp.run (now : Time) (s : Store) : KeyOp → Result
  | .gen uuid insertFails stamp userId body =>
    genAuthKey uuid insertFails stamp now s userId body
  | .create uuid f stamp userId body =>
    adminCreateWechatAccount uuid f stamp now s userId body
  | .delay updateFails key days => delayAuthKey updateFails now s key days
  | .delete deleteFails key => deleteAuthKey deleteFails s key

/-- The record of which request wrote a row of `auth_keys`, after a request handled at
clock reading `now` on the store `s`: a row that the request leaves as it was keeps the
clock reading recorded for it, a row that the request inserted or rewrote gets `now`. -/
def lastWrite (s : Store) (now : Time) (written : AuthKey → Time) (k : AuthKey) : Time :=
  if k ∈ s.auth_keys then written k else now

/-- The stores reachable from the empty store by key operations, each handled at a clock
reading not before the previous one, whenever the engine executes the inserts.
`Reachable s t written`: the store is `s` when the clock reads `t`, and `written k` is the
clock reading of the request that inserted the row `k` or last rewrote it. -/
inductive Reachable : Store → Time → (AuthKey → Time) → Prop where
  /-- The empty store, at any time. -/
  | init (t : Time) (written : AuthKey → Time) : Reachable Store.empty t written
  /-- One more request. -/
  | step {s : Store} {t : Time} {written : AuthKey → Time} (op : KeyOp) (now : Time) :
      Reachable s t written → t ≤ now →
      Reachable (op.run now s).store now (lastWrite s now written)

/-! ## `server/server.js`: the database handle and the user gate -/

/-- What a database handle does with a completion callback passed after `(sql, params)`.
`server.js` holds a `sqlite3.Database`, which runs the statement and then the callback.
`server/server.js` imports `db` from `server/config/database.js`, whose default export is
the wrapper `dbAsync`: its `get`, `all` and `run` are `(sql, params) => new Promise(...)`,
so a third argument never reaches them. -/
inductive Handle where
  /-- A `sqlite3.Database`: the callback runs after the statement. -/
  | sqlite
  /-- The wrapper `dbAsync`: the statement runs, the callback is dropped. -/
  | wrapper
deriving DecidableEq, Repr

/-- The handle `db` of `server/server.js`. -/
def serverDb : Handle := .wrapper

/-- A statement issued with a completion callback: `after` is the store once the statement
has run, `callback` what the callback does from there.  With the wrapper the promise is
left unobserved and nothing is sent. -/
def Handle.andThen (db : Handle) (after : Store) (callback : Result) : Result :=
  match db with
  | .sqlite => callback
  | .wrapper => ⟨after, []⟩

/-- The middleware `userAuth` of `server/server.js`; `hdr` is the `user-id` header (`none`
when absent or empty).  `.ok user` means `req.user = user` and `next()`. -/
def userAuth (selectFails : Bool) (s : Store) (hdr : Option Nat) : Except Response User :=
  match hdr with
  | none => .error ⟨401, .error "未登录"⟩
  | some userId =>
    if selectFails then .error ⟨500, .error "权限验证失败"⟩
    else
      match s.users.find? (fun u => u.id = userId) with
      | none => .error ⟨401, .error "用户不存在"⟩
      | some user => .ok user

/-- A route of `server/server.js` behind `userAuth`; the handler receives `req.user.id`. -/
def userRoute (authFails : Bool) (s : Store) (hdr : Option Nat) (handler : Nat → Result) :
    Result :=
  match userAuth authFails s hdr with
  | .error r => ⟨s, [r]⟩
  | .ok user => handler user.id

/-! ## Deleting a WeChat account -/

/-- The handler of `app.delete('/api/wechat-accounts/:id')` in `server/server.js`, after
`userAuth`; `userId` is `req.user.id`.  Its one statement is
`DELETE FROM wechat_accounts WHERE id = ? AND user_id = ?`, issued as
`db.run(sql, params, callback)`. -/
def userDeleteWechatAccount (db : Handle) (deleteFails : Bool) (s : Store)
    (userId id : Nat) : Result :=
  let s1 := { s with wechat_accounts :=
    s.wechat_accounts.filter (fun a => ¬ (a.id = id ∧ a.user_id = some userId)) }
  if deleteFails then db.andThen s (reply s 500 (.error "删除微信账号失败"))
  else
    db.andThen s1
      (if (s.wechat_accounts.filter
            (fun a => a.id = id ∧ a.user_id = some userId)).length = 0 then
        reply s1 404 (.error "微信账号不存在")
      else reply s1 200 (.message "微信账号删除成功"))

/-- Which statements of the admin delete-account handler the engine rejects. -/
structure DeleteAccountFaults where
  selectAccount : Bool
  deleteAccount : Bool
  deleteKey : Bool
deriving DecidableEq, Repr

/-- The handler of `app.delete('/api/admin/wechat-accounts/:id')` in `server.js`, after the
gate.  An error of the last statement is logged only. -/
def adminDeleteWechatAccount (f : DeleteAccountFaults) (s : Store) (id : Nat) : Result :=
  if f.selectAccount then reply s 500 (.error "查询账号失败")
  else
    match s.wechat_accounts.find? (fun a => a.id = id) with
    | none => reply s 404 (.error "微信账号不存在")
    | some account =>
      if f.deleteAccount then reply s 500 (.error "删除微信账号失败")
      else
        let s1 := { s with wechat_accounts := s.wechat_accounts.filter (fun a => a.id ≠ id) }
        let s2 := if f.deleteKey then s1
          else { s1 with
            auth_keys := s1.auth_keys.filter (fun k => k.key_value ≠ account.auth_key) }
        reply s2 200 (.message "微信账号删除成功")

/-! ## `server/server.js`: creating a WeChat account -/

/-- An `INSERT INTO wechat_accounts` of `server/server.js`, which names `user_id`:
rejected on a fault or on a duplicate `auth_key` (`UNIQUE`).  Returns the store and
`this.lastID`. -/
def insertOwnedWechatAccount (fails : Bool) (now : Time) (s : Store) (auth_key : String)
    (device_auth_key nickname username avatar : Option String) (status : String)
    (userId : Nat) : Option (Store × Nat) :=
  if fails ∨ auth_key ∈ s.wechat_accounts.map (fun a => a.auth_key) then none
  else
    let lastID := nextId (s.wechat_accounts.map (fun a => a.id)) s.seq_wechat_accounts
    some ({ s with
      wechat_accounts := s.wechat_accounts ++
        [{ id := lastID, auth_key := auth_key, device_auth_key := device_auth_key,
           nickname := nickname, username := username, avatar := avatar,
           status := status, last_login := none, created_at := currentTimestamp now,
           updated_at := currentTimestamp now, is_active := true, qr_code_url := none,
           user_id := some userId }]
      seq_wechat_accounts := lastID }, lastID)

/-- The handler of `app.post('/api/wechat-accounts')` in `server/server.js`, after
`userAuth`; `userId` is `req.user.id` and `uuid` the token drawn by `uuidv4()`.  Every
statement is issued as `db.get(sql, params, callback)` or `db.run(sql, params, callback)`;
`stamp` is the time at which the engine executes the insert of the auth key.
An expiry outside the `Date` range makes `toISOString` throw before the first statement;
`server/server.js` installs no error middleware, so the default handler of Express
answers. -/
def userCreateWechatAccount (db : Handle) (uuid : String) (f : CreateAccountFaults)
    (stamp now : Time) (s : Store) (userId : Nat) (body : AccountBody) : Result :=
  let days := body.days.getD 30
  let status := if truthy body.status then body.status.getD "online" else "online"
  if truthy body.auth_key then
    let auth_key := body.auth_key.getD ""
    db.andThen s
      (if f.selectAccount then reply s 500 (.error "查询账号失败")
      else
        match s.wechat_accounts.find?
            (fun a => a.auth_key = auth_key ∧ a.user_id = some userId) with
        | some existingAccount =>
          if f.updateAccount then db.andThen s (reply s 500 (.error "更新微信账号失败"))
          else
            let s1 := { s with wechat_accounts := s.wechat_accounts.map (fun a =>
              if a.auth_key = auth_key ∧ a.user_id = some userId then
                { a with nickname := body.nickname, username := body.username,
                         avatar := body.avatar, status := status,
                         device_auth_key := body.device_auth_key,
                         last_login := some now, updated_at := now }
              else a) }
            db.andThen s1
              ⟨s1, [⟨200, .accountWritten "微信账号信息更新成功" existingAccount.id auth_key
                body.device_auth_key body.nickname body.username body.avatar status⟩]⟩
        | none =>
          match insertOwnedWechatAccount f.insertAccount now s auth_key
              body.device_auth_key body.nickname body.username body.avatar status
              userId with
          | none => db.andThen s (reply s 500 (.error "创建微信账号失败"))
          | some (s1, lastID) =>
            db.andThen s1
              ⟨s1, [⟨200, .accountWritten "微信账号创建成功" lastID auth_key
                body.device_auth_key body.nickname body.username body.avatar status⟩]⟩)
  else
    match expiresAtISO now days with
    | none => reply s 500 .errorPage
    | some expiresAt =>
      match insertAuthKey f.insertKey stamp s uuid userId days expiresAt with
      | none => db.andThen s (reply s 500 (.error "创建授权码失败"))
      | some s1 =>
        db.andThen s1
          (let nickname :=
            if truthy body.nickname then body.nickname.getD "" else "新微信账号"
          match insertOwnedWechatAccount f.insertAccount now s1 uuid none (some nickname)
              none none "waiting" userId with
          | none => db.andThen s1 (reply s1 500 (.error "创建微信账号失败"))
          | some (s2, lastID) =>
            db.andThen s2
              ⟨s2, [⟨200, .accountCreated "微信账号创建成功" lastID uuid nickname
                "waiting" days⟩]⟩)

/-! ## `server/server.js`: the login flow of a WeChat account -/

/-- Which statements of a login-flow handler the engine rejects, with the message of the
error. -/
structure FlowFaults where
  select : Option String
  update : Option String
deriving DecidableEq, Repr

/-- No statement of a login-flow handler fails. -/
def FlowFaults.ok : FlowFaults := ⟨none, none⟩

/-- The rows addressed by `WHERE auth_key = ? AND user_id = ?`. -/
def ownedBy (auth_key : String) (userId : Nat) (a : WechatAccount) : Bool :=
  a.auth_key = auth_key ∧ a.user_id = some userId

/-- The handler of `app.post('/api/wechat/wakeup-login')` in `server/server.js` (the QR
request), after `userAuth`; `uuid` is the token drawn by `uuidv4()` for the placeholder
URL.  The handler reads `id` only and writes `scanning` whatever the status is. -/
def qrWakeupLogin (uuid : String) (f : FlowFaults) (now : Time) (s : Store) (userId : Nat)
    (auth_key : Option String) : Result :=
  if !truthy auth_key then reply s 400 (.error "缺少 auth_key 参数")
  else
    let key := auth_key.getD ""
    match f.select with
    | some msg => reply s 500 (.error ("微信扫码登录失败: " ++ msg))
    | none =>
      match s.wechat_accounts.find? (ownedBy key userId) with
      | none => reply s 404 (.error "无效的 auth_key 或微信账号不存在")
      | some _ =>
        let simulatedQrCodeUrl := "https://example.com/qr/" ++ uuid ++ ".png"
        match f.update with
        | some msg => reply s 500 (.error ("微信扫码登录失败: " ++ msg))
        | none =>
          ⟨{ s with wechat_accounts := s.wechat_accounts.map (fun a =>
              if ownedBy key userId a then
                { a with qr_code_url := some simulatedQrCodeUrl, status := "scanning",
                         updated_at := currentTimestamp now }
              else a) },
            [⟨200, .qrIssued "请扫描二维码登录" simulatedQrCodeUrl key "scanning"⟩]⟩

/-- The handler of `app.post('/api/wechat/simulate-scan/:auth_key')` in
`server/server.js`, after `userAuth`. -/
def simulateScan (f : FlowFaults) (now : Time) (s : Store) (userId : Nat)
    (auth_key : String) : Result :=
  match f.select with
  | some msg => reply s 500 (.error ("模拟扫描失败: " ++ msg))
  | none =>
    match s.wechat_accounts.find? (ownedBy auth_key userId) with
    | none => reply s 404 (.error "微信账号不存在")
    | some account =>
      if account.status ≠ "scanning" then
        reply s 400 (.error ("微信账号状态为 " ++ account.status ++
          ", 不能模拟扫描. 必须为 'scanning'."))
      else
        match f.update with
        | some msg => reply s 500 (.error ("模拟扫描失败: " ++ msg))
        | none =>
          ⟨{ s with wechat_accounts := s.wechat_accounts.map (fun a =>
              if ownedBy auth_key userId a then
                { a with status := "scanned_confirming",
                         updated_at := currentTimestamp now }
              else a) },
            [⟨200, .transition "模拟扫描成功, 等待用户确认" auth_key "scanned_confirming"
              none⟩]⟩

/-- The handler of `app.post('/api/wechat/simulate-confirm/:auth_key')` in
`server/server.js`, after `userAuth`; `success` is the truthiness of `req.body.success`
and `uuid` the token drawn for the device key.  The handler calls `res.json` before it
awaits the update; when the update then throws, the `catch` calls `res.status(500).json`
as well. -/
def simulateConfirm (uuid : String) (f : FlowFaults) (now : Time) (s : Store)
    (userId : Nat) (auth_key : String) (success : Bool) : Result :=
  let newStatus := if success then "online" else "failed"
  match f.select with
  | some msg => reply s 500 (.error ("模拟确认失败: " ++ msg))
  | none =>
    match s.wechat_accounts.find? (ownedBy auth_key userId) with
    | none => reply s 404 (.error "微信账号不存在")
    | some account =>
      if account.status ≠ "scanned_confirming" then
        reply s 400 (.error ("微信账号状态为 " ++ account.status ++
          ", 不能模拟确认. 必须为 'scanned_confirming'."))
      else
        let simulatedDeviceAuthKey := "sim_dak_" ++ uuid
        let sent : Response :=
          ⟨200, .transition ("模拟确认成功, 状态: " ++ newStatus) auth_key newStatus
            (if success then some simulatedDeviceAuthKey else none)⟩
        match f.update with
        | some msg => ⟨s, [sent, ⟨500, .error ("模拟确认失败: " ++ msg)⟩]⟩
        | none =>
          ⟨{ s with wechat_accounts := s.wechat_accounts.map (fun a =>
              if ownedBy auth_key userId a then
                if success then
                  { a with status := newStatus, last_login := some (currentTimestamp now),
                           device_auth_key := some simulatedDeviceAuthKey,
                           updated_at := currentTimestamp now }
                else
                  { a with status := newStatus, device_auth_key := none,
                           updated_at := currentTimestamp now }
              else a) },
            [sent]⟩

/-! ## `server.js`: wakeup login and the role guard -/

/-- The JSON reply of the gateway to `WakeUpLogin`.  `Code` is `none` when the reply has no
integer `Code`; `Data` is the JSON text of the field `Data`. -/
structure GatewayReply where
  Code : Option Int
  Message : Option String
  Data : Option String
deriving DecidableEq, Repr

/-- What the call `fetch(...).then(response => response.json())` yields: a reply, or a
rejection with the message of the error (transport failure, body that is not JSON). -/
inductive GatewayOutcome where
  /-- The gateway replied with a JSON object. -/
  | reply (d : GatewayReply)
  /-- The promise was rejected. -/
  | failed (message : String)
deriving DecidableEq, Repr

/-- Outcome of a wakeup-login request: the store, the responses, and the device keys sent
to the gateway, one per call. -/
structure WakeupResult where
  store : Store
  responses : List Response
  gatewayCalls : List String
deriving DecidableEq, Repr

/-- The handler of `app.post('/api/wechat/wakeup-login')` in `server.js`, after
`authenticateToken`.  `gateway` answers a call with the given device key.  On `Code` 200
the update is issued and the response is sent without waiting for it; an error of the
update is logged only. -/
def wakeupLogin (gateway : String → GatewayOutcome) (selectFails updateFails : Bool)
    (now : Time) (s : Store) (auth_key : Option String) : WakeupResult :=
  if !truthy auth_key then ⟨s, [⟨400, .error "缺少授权码参数"⟩], []⟩
  else
    let key := auth_key.getD ""
    if selectFails then ⟨s, [⟨500, .error "查询账号失败"⟩], []⟩
    else
      match s.wechat_accounts.find? (fun a => a.auth_key = key) with
      | none => ⟨s, [⟨404, .error "微信账号不存在"⟩], []⟩
      | some account =>
        if !truthy account.device_auth_key then
          ⟨s, [⟨400, .error "该账号未绑定设备，请先扫码登录"⟩], []⟩
        else
          let deviceKey := account.device_auth_key.getD ""
          match gateway deviceKey with
          | .failed message =>
            ⟨s, [⟨500, .wakeupError "唤醒登录请求失败" message⟩], [deviceKey]⟩
          | .reply d =>
            if d.Code = some 200 then
              let s1 := if updateFails then s
                else { s with wechat_accounts := s.wechat_accounts.map (fun a =>
                  if a.auth_key = key then
                    { a with status := "online", last_login := some now,
                             updated_at := now }
                  else a) }
              ⟨s1, [⟨200, .wakeupOk "唤醒登录成功" d.Data⟩], [deviceKey]⟩
            else
              ⟨s, [⟨400, .wakeupError "唤醒登录失败"
                (if truthy d.Message then d.Message.getD "" else "未知错误")⟩],
                [deviceKey]⟩

/-- The payload of a verified token, `req.user`. -/
structure Identity where
  id : Nat
  username : String
  role : String
deriving DecidableEq, Repr

/-- The guard `requireRole(roles)` of `server.js`, applied to `req.user`.  `none` means
`next()` was called; `some r` is the response sent instead. -/
def requireRole (roles : List String) (user : Identity) : Option Response :=
  if !roles.contains user.role then some ⟨403, .error "权限不足"⟩ else none

/-! ## `server.js`: the bearer gate -/

/-- The segments of `text.split(' ')`, read from the characters `cs` with the current
segment `cur` held in reverse. -/
def splitSpaceAux : List Char → List Char → List String
  | [], cur => [String.mk cur.reverse]
  | c :: cs, cur =>
    if c = ' ' then String.mk cur.reverse :: splitSpaceAux cs []
    else splitSpaceAux cs (c :: cur)

/-- JavaScript `text.split(' ')`. -/
def splitSpace (text : String) : List String := splitSpaceAux text.data []

/-- The expression `authHeader && authHeader.split(' ')[1]` of `authenticateToken`:
`none` stands for `undefined`. -/
def bearerToken (authHeader : Option String) : Option String :=
  match authHeader with
  | none => none
  | some h => if h = "" then some "" else (splitSpace h)[1]?

/-- The middleware `authenticateToken` of `server.js`.  `verify` is `jwt.verify` with the
secret: `none` is a verification error, `some user` the decoded payload.  `.ok user` means
`req.user = user` and `next()`; `.error r` is the response sent by `res.sendStatus`. -/
def authenticateToken (verify : String → Option Identity) (authHeader : Option String) :
    Except Response Identity :=
  if !truthy (bearerToken authHeader) then .error ⟨401, .plain "Unauthorized"⟩
  else
    match verify ((bearerToken authHeader).getD "") with
    | none => .error ⟨403, .plain "Forbidden"⟩
    | some user => .ok user

/-! ## `server/server.js`: reading and updating an account of the requester -/

/-- The handler of `app.get('/api/wechat-accounts/:id')` in `server/server.js`, after
`userAuth`; the statement is issued as `db.get(sql, params, callback)`. -/
def userGetWechatAccount (db : Handle) (selectFails : Bool) (s : Store)
    (userId id : Nat) : Result :=
  db.andThen s
    (if selectFails then reply s 500 (.error "获取微信账号详情失败")
    else
      match s.wechat_accounts.find? (fun a => a.id = id ∧ a.user_id = some userId) with
      | none => reply s 404 (.error "微信账号不存在")
      | some account => reply s 200 (.account account))

/-- Body of `PUT /api/wechat-accounts/:id/status`. -/
structure StatusBody where
  status : Option String
  qr_code_url : Option String
deriving DecidableEq, Repr

/-- The handler of `app.put('/api/wechat-accounts/:id/status')` in `server/server.js`,
after `userAuth`; the update is issued as `db.run(sql, params, callback)`.  The supplied
status is written as it comes. -/
def userPutStatus (db : Handle) (updateFails : Bool) (now : Time) (s : Store)
    (userId id : Nat) (body : StatusBody) : Result :=
  if !truthy body.status && !truthy body.qr_code_url then
    reply s 400 (.error "缺少更新参数")
  else
    let s1 := { s with wechat_accounts := s.wechat_accounts.map (fun a =>
      if a.id = id ∧ a.user_id = some userId then
        { a with
          status := if truthy body.status then body.status.getD "" else a.status
          qr_code_url := if truthy body.qr_code_url then body.qr_code_url else a.qr_code_url
          updated_at := now }
      else a) }
    if updateFails then db.andThen s (reply s 500 (.error "更新微信账号状态失败"))
    else
      db.andThen s1
        (if (s.wechat_accounts.filter
              (fun a => a.id = id ∧ a.user_id = some userId)).length = 0 then
          reply s1 404 (.error "微信账号不存在")
        else reply s1 200 (.message "微信账号状态更新成功"))

/-! ## `server.js`: the admin status update -/

/-- Body of `PUT /api/admin/wechat-accounts/:id/status`. -/
structure AdminStatusBody where
  status : Option String
  nickname : Option String
  username : Option String
  avatar : Option String
  qr_code_url : Option String
deriving DecidableEq, Repr

/-- The row written by the `UPDATE` of the admin status handler: a field is replaced when
the body supplies a truthy value, `last_login` when the supplied status is `online`, and
`updated_at` always. -/
def adminStatusRow (now : Time) (body : AdminStatusBody) (a : WechatAccount) :
    WechatAccount :=
  { a with
    status := if truthy body.status then body.status.getD "" else a.status
    nickname := if truthy body.nickname then body.nickname else a.nickname
    username := if truthy body.username then body.username else a.username
    avatar := if truthy body.avatar then body.avatar else a.avatar
    qr_code_url := if truthy body.qr_code_url then body.qr_code_url else a.qr_code_url
    last_login := if body.status = some "online" then some now else a.last_login
    updated_at := now }

/-- The handler of `app.put('/api/admin/wechat-accounts/:id/status')` in `server.js`,
after the gate.  The statement is rejected on a fault, and, when it addresses a row, on a
supplied status outside the `CHECK` of the schema. -/
def adminPutStatus (updateFails : Bool) (now : Time) (s : Store) (id : Nat)
    (body : AdminStatusBody) : Result :=
  if updateFails then reply s 500 (.error "更新微信账号失败")
  else if (s.wechat_accounts.filter (fun a => a.id = id)).length = 0 then
    reply s 404 (.error "微信账号不存在")
  else if truthy body.status ∧ ¬ statusAllowed (body.status.getD "") then
    reply s 500 (.error "更新微信账号失败")
  else
    ⟨{ s with wechat_accounts := s.wechat_accounts.map (fun a =>
        if a.id = id then adminStatusRow now body a else a) },
      [⟨200, .message "更新成功"⟩]⟩

/-! ## `server/server.js`: updating and listing users -/

/-- Body of `PUT /api/admin/users/:userId`. -/
structure UserUpdateBody where
  username : String
  email : Option String
  role : String
  phone : Option String
deriving DecidableEq, Repr

/-- Which statements of the user-update handler the engine rejects. -/
structure UserUpdateFaults where
  selectUsername : Bool
  selectEmail : Bool
  update : Bool
deriving DecidableEq, Repr

/-- The handler of `app.put('/api/admin/users/:userId')` in `server/server.js`, after
`adminAuth`.  The handler does not look the user up and does not look at the role. -/
def updateUserHandler (f : UserUpdateFaults) (now : Time) (s : Store) (userId : Nat)
    (body : UserUpdateBody) : Result :=
  let failed := reply s 500 (.error "更新用户信息失败")
  if f.selectUsername then failed
  else
    match s.users.find? (fun u => u.username = body.username ∧ u.id ≠ userId) with
    | some _ => reply s 400 (.error "用户名已被使用")
    | none =>
      if f.selectEmail then failed
      else
        match s.users.find? (fun u => u.email.isSome ∧ u.email = body.email ∧
            u.id ≠ userId) with
        | some _ => reply s 400 (.error "邮箱已被使用")
        | none =>
          if f.update then failed
          else
            ⟨{ s with users := s.users.map (fun u =>
                if u.id = userId then
                  { u with username := body.username, email := body.email,
                           role := body.role, phone := body.phone,
                           updated_at := currentTimestamp now }
                else u) },
              [⟨200, .message "用户信息更新成功"⟩]⟩

/-- The route `PUT /api/admin/users/:userId` of `server/server.js`: `adminAuth`, then the
handler. -/
def updateUserRoute (authFails : Bool) (f : UserUpdateFaults) (now : Time) (s : Store)
    (hdr : Option Nat) (userId : Nat) (body : UserUpdateBody) : Result :=
  match adminAuth authFails s hdr with
  | some r => ⟨s, [r]⟩
  | none => updateUserHandler f now s userId body

/-- The rows of `users` in the order `ORDER BY created_at DESC`. -/
def usersNewestFirst (s : Store) : List User :=
  s.users.insertionSort (fun a b => b.created_at ≤ a.created_at)

/-- The handler of `app.get('/api/admin/users')` in `server/server.js`, after `adminAuth`:
`SELECT * FROM users`, every column of every row. -/
def listUsersHandler (selectFails : Bool) (s : Store) : Result :=
  if selectFails then reply s 500 (.error "获取用户列表失败")
  else
    reply s 200 (.userList ((usersNewestFirst s).map (fun u =>
      { id := u.id, username := u.username, password := some u.password, role := u.role,
        email := u.email, phone := u.phone, created_at := u.created_at,
        updated_at := some u.updated_at })))

/-- The route `GET /api/admin/users` of `server/server.js`: `adminAuth`, then the
handler. -/
def listUsersRoute (authFails selectFails : Bool) (s : Store) (hdr : Option Nat) : Result :=
  match adminAuth authFails s hdr with
  | some r => ⟨s, [r]⟩
  | none => listUsersHandler selectFails s

/-- The handler of `app.get('/api/admin/users')` in `server.js`, after the gate:
`SELECT id, username, role, email, created_at FROM users`. -/
def adminListUsers (selectFails : Bool) (s : Store) : Result :=
  if selectFails then reply s 500 (.error "获取用户列表失败")
  else
    reply s 200 (.userList ((usersNewestFirst s).map (fun u =>
      { id := u.id, username := u.username, password := none, role := u.role,
        email := u.email, phone := none, created_at := u.created_at,
        updated_at := none })))

/-! ## The WeChat-account operations of `server/server.js` as a transition system -/

/-- One request of a user to a WeChat-account operation of `server/server.js`, with what
the environment contributes to it. -/
inductive AccountOp where
  /-- `POST /api/wechat-accounts`: fresh creation, or create-or-update when the body
  supplies an `auth_key`. -/
  | create (uuid : String) (f : CreateAccountFaults) (stamp : Time) (body : AccountBody)
  /-- `PUT /api/wechat-accounts/:id/status`. -/
  | putStatus (updateFails : Bool) (id : Nat) (body : StatusBody)
  /-- `DELETE /api/wechat-accounts/:id`. -/
  | delete (deleteFails : Bool) (id : Nat)
  /-- `POST /api/wechat/wakeup-login`, the QR request. -/
  | qr (uuid : String) (f : FlowFaults) (auth_key : Option String)
  /-- `POST /api/wechat/simulate-scan/:auth_key`. -/
  | scan (f : FlowFaults) (auth_key : String)
  /-- `POST /api/wechat/simulate-confirm/:auth_key`. -/
  | confirm (uuid : String) (f : FlowFaults) (auth_key : String) (success : Bool)

/-- Running an account operation for requester `userId` at clock reading `now` on the
handle `db`. -/
def AccountOp.run (db : Handle) (now : Time) (userId : Nat) (s : Store) :
    AccountOp → Result
  | .create uuid f stamp body => userCreateWechatAccount db uuid f stamp now s userId body
  | .putStatus updateFails id body => userPutStatus db updateFails now s userId id body
  | .delete deleteFails id => userDeleteWechatAccount db deleteFails s userId id
  | .qr uuid f auth_key => qrWakeupLogin uuid f now s userId auth_key
  | .scan f auth_key => simulateScan f now s userId auth_key
  | .confirm uuid f auth_key success => simulateConfirm uuid f now s userId auth_key success

/-- The stores reachable from `s0` by account operations on the handle `db`, each
operation satisfying `ok` in the store it is run on. -/
inductive AccountReachable (db : Handle) (ok : Store → AccountOp → Prop) (s0 : Store) :
    Store → Prop where
  /-- The initial store. -/
  | init : AccountReachable db ok s0 s0
  /-- One more request. -/
  | step {s : Store} (op : AccountOp) (now : Time) (userId : Nat) :
      AccountReachable db ok s0 s → ok s op →
      AccountReachable db ok s0 (op.run db now userId s).store

/-- The token drawn by a create request is fresh: no account holds it as `auth_key`. -/
def freshToken (s : Store) : AccountOp → Prop
  | .create uuid _ _ _ => uuid ∉ s.wechat_accounts.map (fun a => a.auth_key)
  | _ => True

/-- No condition on the operations. -/
def anyOp (_s : Store) (_op : AccountOp) : Prop := True

/-- The six statuses of the account life cycle. -/
def knownStatus (status : String) : Bool :=
  status ∈ ["waiting", "scanning", "scanned_confirming", "online", "offline", "failed"]

/-- The status a request supplies, if it supplies one, is one of the six. -/
def suppliesKnownStatus (_s : Store) : AccountOp → Prop
  | .create _ _ _ body =>
    truthy body.status = true → knownStatus (body.status.getD "") = true
  | .putStatus _ _ body =>
    truthy body.status = true → knownStatus (body.status.getD "") = true
  | _ => True

/-- Every account whose `auth_key` names an auth key has the `user_id` of that key. -/
def ownerConsistent (s : Store) : Prop :=
  ∀ a ∈ s.wechat_accounts, ∀ k ∈ s.auth_keys,
    k.key_value = a.auth_key → a.user_id = some k.user_id

/-- Every account has one of the six statuses. -/
def statusesKnown (s : Store) : Prop :=
  ∀ a ∈ s.wechat_accounts, knownStatus a.status = true

/-! ## Sample stores -/

/-- A sample user row. -/
def sampleUser (id : Nat) (username role : String) : User :=
  { id := id, username := username, password := "hash:" ++ username, role := role,
    email := some (username ++ "@example.com"), phone := none,
    created_at := 0, updated_at := 0 }

/-- A sample store: one admin (id 1) and one user (id 2) who owns a device, a key and a
WeChat account; the admin owns a key as well. -/
def sampleStore : Store :=
  { users := [sampleUser 1 "root" "admin", sampleUser 2 "bob" "user"]
    devices := [⟨1, "phone", "key-bob", 2, "offline", none, 0⟩]
    wechat_accounts :=
      [⟨1, "key-bob", none, some "bob-bot", none, none, "waiting", none, 0, 0, true, none,
        some 2⟩]
    auth_keys := [⟨1, "key-root", 1, 30, 0, 2592000000, true⟩,
                  ⟨2, "key-bob", 2, 30, 0, 2592000000, true⟩]
    seq_users := 2, seq_devices := 1, seq_wechat_accounts := 1, seq_auth_keys := 2 }

/-- A password check for the sample stores: the stored hash is `hash:` followed by the
password. -/
def sampleCompare (password stored : String) : Bool := stored = "hash:" ++ password

/-- A token signer for the sample stores. -/
def sampleSign (id : Nat) (username role : String) : String :=
  "jwt:" ++ toString id ++ ":" ++ username ++ ":" ++ role

/-- A password hash for the sample stores. -/
def sampleHash (password : String) : String := "hash:" ++ password

/-- A token generator for the sample stores: round `i` draws `key-i`. -/
def sampleUuid (i : Nat) : String := "key-" ++ toString i

/-- A row that a successful `INSERT INTO auth_keys` of gen-auth-key appends: the expiry
counts from the clock reading `now` of the handler, `created_at` is the whole second of
the time at which the engine executed one of the inserts. -/
def AuthKey.minted (k : AuthKey) (now : Time) (stamp : Nat → Time) (userId : Nat)
    (days : Int) : Prop :=
  k.user_id = userId ∧ k.days = days ∧ k.expires_at = now + days * msPerDay ∧
  (∃ i, k.created_at = currentTimestamp (stamp i)) ∧ k.is_active = true

/-- The store after admin 1 mints one key for 30 days at clock reading 0, the insert
executed at once. -/
def mintedStore : Store :=
  (KeyOp.run 0 Store.empty
    (.gen sampleUuid (fun _ => false) (fun _ => 0) 1 ⟨some 1, some 30⟩)).store

/-- The store after the key of `mintedStore` is delayed by 30 days one day later (clock
reading 86400000). -/
def delayedStore : Store :=
  (KeyOp.run 86400000 mintedStore (.delay false "key-0" 30)).store

/-- The store after admin 1 mints one key for 30 days at clock reading 947, the engine
executing the queued insert 57 milliseconds later, in the next second. -/
def lateStampStore : Store :=
  (KeyOp.run 947 Store.empty
    (.gen sampleUuid (fun _ => false) (fun _ => 1004) 1 ⟨some 1, some 30⟩)).store

/-- The sample store with the status of its WeChat account set to `status` and its
device key to `deviceKey`. -/
def storeWithStatus (status : String) (deviceKey : Option String) : Store :=
  { sampleStore with
    wechat_accounts :=
      [⟨1, "key-bob", deviceKey, some "bob-bot", none, none, status, none, 0, 0, true, none,
        some 2⟩] }

/-- A gateway for the sample stores: it answers every call with the given outcome. -/
def sampleGateway (outcome : GatewayOutcome) (_deviceKey : String) : GatewayOutcome :=
  outcome

/-- A token check for the sample stores: the token `t-alice` verifies as admin 1. -/
def sampleVerify (token : String) : Option Identity :=
  if token = "t-alice" then some ⟨1, "root", "admin"⟩ else none

/-! # Theorems -/

/-! ## Deleting a user (`server/server.js`) -/

theorem deleteCascade_ok (f : DeleteUserFaults) (s s4 : Store) (userId : Nat)
    (h : deleteCascade f s userId = .ok s4) :
    s4 = { s with
      devices := s.devices.filter (fun d => d.user_id ≠ userId)
      wechat_accounts := s.wechat_accounts.filter (fun a => a.user_id ≠ some userId)
      auth_keys := s.auth_keys.filter (fun k => k.user_id ≠ userId)
      users := s.users.filter (fun u => u.id ≠ userId) } := by
  unfold deleteCascade at h
  split_ifs at h
  simpa using h.symm

theorem deleteCascade_error (f : DeleteUserFaults) (s : Store) (userId : Nat)
    (h : f.deleteDevices = true ∨ f.deleteAccounts = true ∨ f.deleteKeys = true ∨
      f.deleteUser = true) :
    ∃ working, deleteCascade f s userId = .error working := by
  unfold deleteCascade
  split_ifs <;> simp_all

theorem deleteUserHandler_cases (f : DeleteUserFaults) (s : Store) (userId : Nat) :
    deleteUserHandler f s userId = reply s 500 (.error "删除用户失败") ∨
    deleteUserHandler f s userId = reply s 400 (.error "不能删除最后一个管理员") ∨
    ∃ s4, deleteCascade f s userId = .ok s4 ∧
      deleteUserHandler f s userId = reply s4 200 (.message "用户删除成功") := by
  unfold deleteUserHandler
  cases s.users.find? (fun u => u.id = userId) with
  | none => simp
  | some user =>
    cases hc : deleteCascade f s userId with
    | error w => simp only []; split_ifs <;> simp
    | ok s4 => simp only []; split_ifs <;> simp

/-- C1: when the target user exists with role admin and the users table holds at most one
admin, `DELETE /api/admin/users/:userId` (for an admitted admin requester, the two lookups
being answered by the database) sends the single response 400 and returns the store it
was given: users, devices, wechat_accounts and auth_keys are unchanged. -/
theorem deleteUser_last_admin_rejected (f : DeleteUserFaults) (s : Store)
    (hdr : Option Nat) (userId : Nat) (user : User)
    (hauth : adminAuth false s hdr = none)
    (hsel : f.selectRole = false) (hcnt : f.countAdmins = false)
    (hfind : s.users.find? (fun u => u.id = userId) = some user)
    (hrole : user.role = "admin") (hone : adminCount s ≤ 1) :
    deleteUserRoute false f s hdr userId
      = ⟨s, [⟨400, .error "不能删除最后一个管理员"⟩]⟩ := by
  simp [deleteUserRoute, hauth, deleteUserHandler, hsel, hfind, hrole, hcnt, hone, reply]

/-- Witness for C1: the only admin of a one-user store deletes their own account. -/
theorem deleteUser_last_admin_rejected_witness :
    deleteUserRoute false DeleteUserFaults.ok
        { sampleStore with users := [sampleUser 1 "root" "admin"] } (some 1) 1
      = ⟨{ sampleStore with users := [sampleUser 1 "root" "admin"] },
          [⟨400, .error "不能删除最后一个管理员"⟩]⟩ :=
  deleteUser_last_admin_rejected DeleteUserFaults.ok
    { sampleStore with users := [sampleUser 1 "root" "admin"] } (some 1) 1
    (sampleUser 1 "root" "admin") (by decide) rfl rfl (by decide) (by decide) (by decide)

/-- C2: whenever `DELETE /api/admin/users/:userId` answers 200 for user id `userId`, the
resulting store has no users row with that id and no devices, wechat_accounts or auth_keys
row with that `user_id`, and each table is the old table with exactly those rows removed
(rows of other users are kept, unchanged and in order). -/
theorem deleteUser_cascade_complete (authFails : Bool) (f : DeleteUserFaults) (s : Store)
    (hdr : Option Nat) (userId : Nat)
    (h200 : (deleteUserRoute authFails f s hdr userId).responses.map (fun r => r.status)
      = [200]) :
    (∀ u ∈ (deleteUserRoute authFails f s hdr userId).store.users, u.id ≠ userId) ∧
    (∀ d ∈ (deleteUserRoute authFails f s hdr userId).store.devices, d.user_id ≠ userId) ∧
    (∀ a ∈ (deleteUserRoute authFails f s hdr userId).store.wechat_accounts,
      a.user_id ≠ some userId) ∧
    (∀ k ∈ (deleteUserRoute authFails f s hdr userId).store.auth_keys,
      k.user_id ≠ userId) ∧
    (deleteUserRoute authFails f s hdr userId).store.users
      = s.users.filter (fun u => u.id ≠ userId) ∧
    (deleteUserRoute authFails f s hdr userId).store.devices
      = s.devices.filter (fun d => d.user_id ≠ userId) ∧
    (deleteUserRoute authFails f s hdr userId).store.wechat_accounts
      = s.wechat_accounts.filter (fun a => a.user_id ≠ some userId) ∧
    (deleteUserRoute authFails f s hdr userId).store.auth_keys
      = s.auth_keys.filter (fun k => k.user_id ≠ userId) := by
  have key : (deleteUserRoute authFails f s hdr userId).store = { s with
      devices := s.devices.filter (fun d => d.user_id ≠ userId)
      wechat_accounts := s.wechat_accounts.filter (fun a => a.user_id ≠ some userId)
      auth_keys := s.auth_keys.filter (fun k => k.user_id ≠ userId)
      users := s.users.filter (fun u => u.id ≠ userId) } := by
    unfold deleteUserRoute at h200 ⊢
    cases ha : adminAuth authFails s hdr with
    | some r =>
      rw [ha] at h200
      unfold adminAuth at ha
      exfalso
      revert ha
      cases hdr with
      | none => intro ha; simp at ha; subst ha; simp at h200
      | some uid =>
        simp only []
        intro ha
        split_ifs at ha
        · simp at ha; subst ha; simp at h200
        · revert ha
          cases s.users.find? (fun u => u.id = uid) with
          | none => intro ha; simp at ha; subst ha; simp at h200
          | some u =>
            simp only []
            intro ha
            split_ifs at ha
            simp at ha; subst ha; simp at h200
    | none =>
      rw [ha] at h200
      simp only []
      rcases deleteUserHandler_cases f s userId with h | h | ⟨s4, hc, h⟩
      · rw [h] at h200; simp [reply] at h200
      · rw [h] at h200; simp [reply] at h200
      · rw [h]; simpa [reply] using deleteCascade_ok f s s4 userId hc
  rw [key]
  simp [List.mem_filter]

/-- Witness for C2: the admin of the sample store deletes user 2. -/
theorem deleteUser_cascade_complete_witness :
    (∀ u ∈ (deleteUserRoute false DeleteUserFaults.ok sampleStore (some 1) 2).store.users,
      u.id ≠ 2) ∧
    (∀ d ∈ (deleteUserRoute false DeleteUserFaults.ok sampleStore (some 1) 2).store.devices,
      d.user_id ≠ 2) ∧
    (∀ a ∈ (deleteUserRoute false DeleteUserFaults.ok sampleStore (some 1)
      2).store.wechat_accounts, a.user_id ≠ some 2) ∧
    (∀ k ∈ (deleteUserRoute false DeleteUserFaults.ok sampleStore (some 1)
      2).store.auth_keys, k.user_id ≠ 2) ∧
    (deleteUserRoute false DeleteUserFaults.ok sampleStore (some 1) 2).store.users
      = sampleStore.users.filter (fun u => u.id ≠ 2) ∧
    (deleteUserRoute false DeleteUserFaults.ok sampleStore (some 1) 2).store.devices
      = sampleStore.devices.filter (fun d => d.user_id ≠ 2) ∧
    (deleteUserRoute false DeleteUserFaults.ok sampleStore (some 1) 2).store.wechat_accounts
      = sampleStore.wechat_accounts.filter (fun a => a.user_id ≠ some 2) ∧
    (deleteUserRoute false DeleteUserFaults.ok sampleStore (some 1) 2).store.auth_keys
      = sampleStore.auth_keys.filter (fun k => k.user_id ≠ 2) :=
  deleteUser_cascade_complete false DeleteUserFaults.ok sampleStore (some 1) 2 (by decide)

/-- C3: when the request reaches the cascade (the requester is admitted and the
last-admin guard does not reject the target) and the engine rejects one of the four
delete statements (devices, wechat_accounts, auth_keys, users), the operation sends the
single response 500 and the store afterwards is the store before: the rows deleted by the
earlier statements of the cascade are back. -/
theorem deleteUser_failure_rolls_back (authFails : Bool) (f : DeleteUserFaults)
    (s : Store) (hdr : Option Nat) (userId : Nat)
    (hauth : adminAuth authFails s hdr = none)
    (hguard : ∀ user, s.users.find? (fun u => u.id = userId) = some user →
      ¬ (user.role = "admin" ∧ adminCount s ≤ 1))
    (hfail : f.deleteDevices = true ∨ f.deleteAccounts = true ∨ f.deleteKeys = true ∨
      f.deleteUser = true) :
    deleteUserRoute authFails f s hdr userId = ⟨s, [⟨500, .error "删除用户失败"⟩]⟩ := by
  obtain ⟨w, hw⟩ := deleteCascade_error f s userId hfail
  simp only [deleteUserRoute, hauth, deleteUserHandler, reply, hw]
  cases hu : s.users.find? (fun u => u.id = userId) with
  | none => simp
  | some user =>
    have hg := hguard user hu
    by_cases hr : user.role = "admin" <;> simp_all

/-- Witness for C3: deleting user 2 of the sample store when the third delete statement
(auth_keys) fails, after devices and wechat_accounts rows of user 2 were removed. -/
theorem deleteUser_failure_rolls_back_witness :
    deleteUserRoute false { DeleteUserFaults.ok with deleteKeys := true } sampleStore
        (some 1) 2
      = ⟨sampleStore, [⟨500, .error "删除用户失败"⟩]⟩ :=
  deleteUser_failure_rolls_back false { DeleteUserFaults.ok with deleteKeys := true }
    sampleStore (some 1) 2 (by decide) (by decide) (by decide)

/-! ## Login -/

theorem find?_none_of_forall {α : Type} (p : α → Bool) (l : List α)
    (h : ∀ a ∈ l, p a = false) : l.find? p = none := by
  simpa using h

/-- C4: in both login handlers (`routes/auth.js` and `server.js`), a login with a username
that is not stored and a login with a stored username whose password does not match send
the same single response: status 401 with the body `error: 用户名或密码错误`.  The two
results are equal (store and response), and that body carries no token. -/
theorem login_failures_indistinguishable (compare : String → String → Bool)
    (sign : Nat → String → String → String) (s : Store)
    (u1 p1 u2 p2 : String) (user : User)
    (habsent : ∀ u ∈ s.users, u.username ≠ u1)
    (hstored : s.users.find? (fun u => u.username = u2) = some user)
    (hwrong : compare p2 user.password = false) :
    authLogin compare sign false s u1 p1 = ⟨s, [⟨401, .error "用户名或密码错误"⟩]⟩ ∧
    authLogin compare sign false s u2 p2 = authLogin compare sign false s u1 p1 ∧
    apiLogin compare sign false s u1 p1 = ⟨s, [⟨401, .error "用户名或密码错误"⟩]⟩ ∧
    apiLogin compare sign false s u2 p2 = apiLogin compare sign false s u1 p1 ∧
    (Body.error "用户名或密码错误").token? = none := by
  have h1 : s.users.find? (fun u => decide (u.username = u1)) = none :=
    find?_none_of_forall _ _ (by simpa using habsent)
  simp [authLogin, apiLogin, h1, hstored, hwrong, reply, Body.token?]

/-- Witness for C4: in the sample store, `carol` is not stored and `bob` is stored with
another password. -/
theorem login_failures_indistinguishable_witness :
    authLogin sampleCompare sampleSign false sampleStore "carol" "pw"
      = ⟨sampleStore, [⟨401, .error "用户名或密码错误"⟩]⟩ ∧
    authLogin sampleCompare sampleSign false sampleStore "bob" "wrong"
      = authLogin sampleCompare sampleSign false sampleStore "carol" "pw" ∧
    apiLogin sampleCompare sampleSign false sampleStore "carol" "pw"
      = ⟨sampleStore, [⟨401, .error "用户名或密码错误"⟩]⟩ ∧
    apiLogin sampleCompare sampleSign false sampleStore "bob" "wrong"
      = apiLogin sampleCompare sampleSign false sampleStore "carol" "pw" ∧
    (Body.error "用户名或密码错误").token? = none :=
  login_failures_indistinguishable sampleCompare sampleSign sampleStore "carol" "pw" "bob"
    "wrong" (sampleUser 2 "bob" "user") (by decide) (by decide) (by decide)

/-! ## Registration -/

theorem foldl_max_le (l : List Nat) (a : Nat) : a ≤ l.foldl max a := by
  induction l generalizing a with
  | nil => simp
  | cons x xs ih => exact le_trans (le_max_left a x) (ih (max a x))

theorem le_foldl_max (l : List Nat) (a x : Nat) (h : x ∈ l) : x ≤ l.foldl max a := by
  induction l generalizing a with
  | nil => simp at h
  | cons y ys ih =>
    rcases List.mem_cons.mp h with rfl | h
    · exact le_trans (le_max_right a x) (foldl_max_le ys (max a x))
    · exact ih (max a y) h

theorem lt_nextId (ids : List Nat) (seq x : Nat) (h : x ∈ ids) : x < nextId ids seq := by
  have := le_foldl_max ids 0 x h
  unfold nextId
  omega

/-- C5: for every store and every registration request, the database answering the
handler's statements: if the username equals that of a stored user, or the email equals
that of a stored user, the register handler of `routes/auth.js` sends the single response
400 and returns the store unchanged; otherwise it appends exactly one users row, carrying
the request's username and email and an id no stored user has, and sends the single
response 201 with that id. -/
theorem register_conflict_or_insert (hash : String → String) (now : Time) (s : Store)
    (req : RegisterRequest) :
    ((∃ u ∈ s.users, u.username = req.username ∨ u.email = some req.email) →
      ∃ msg, authRegister hash RegisterFaults.ok now s req = ⟨s, [⟨400, .error msg⟩]⟩) ∧
    ((¬ ∃ u ∈ s.users, u.username = req.username ∨ u.email = some req.email) →
      ∃ row : User, row.username = req.username ∧ row.email = some req.email ∧
        (∀ u ∈ s.users, u.id ≠ row.id) ∧
        authRegister hash RegisterFaults.ok now s req
          = ⟨{ s with users := s.users ++ [row], seq_users := row.id },
              [⟨201, .registered "注册成功" row.id⟩]⟩) := by
  constructor
  · rintro ⟨u, hu, hc⟩
    unfold authRegister
    simp only [RegisterFaults.ok, reply]
    cases h1 : s.users.find? (fun u => u.username = req.username) with
    | some _ => exact ⟨_, rfl⟩
    | none =>
      cases h2 : s.users.find? (fun u => u.email = some req.email) with
      | some _ => exact ⟨_, rfl⟩
      | none =>
        exfalso
        rw [List.find?_eq_none] at h1 h2
        have a1 := h1 u hu
        have a2 := h2 u hu
        rcases hc with hc | hc <;> simp_all
  · intro hno
    have h1 : s.users.find? (fun u => decide (u.username = req.username)) = none := by
      rw [List.find?_eq_none]
      intro u hu
      have : ¬ u.username = req.username := fun h => hno ⟨u, hu, Or.inl h⟩
      simpa using this
    have h2 : s.users.find? (fun u => decide (u.email = some req.email)) = none := by
      rw [List.find?_eq_none]
      intro u hu
      have : ¬ u.email = some req.email := fun h => hno ⟨u, hu, Or.inr h⟩
      simpa using this
    refine ⟨{ id := nextId (s.users.map (fun u => u.id)) s.seq_users,
              username := req.username, password := hash req.password,
              role := req.role.getD "user", email := some req.email, phone := none,
              created_at := currentTimestamp now, updated_at := currentTimestamp now },
            rfl, rfl, ?_, ?_⟩
    · intro u hu
      have := lt_nextId (s.users.map (fun u => u.id)) s.seq_users u.id
        (List.mem_map.mpr ⟨u, hu, rfl⟩)
      simp only []
      omega
    · simp [authRegister, RegisterFaults.ok, h1, h2]

/-- C6 (evaluation at the failing input): registering without a role into the empty store
through the register handler of `routes/auth.js` succeeds with 201 and stores the role
`user`, not `admin`. -/
theorem register_first_user_keeps_role (hash : String → String) (now : Time) :
    (authRegister hash RegisterFaults.ok now Store.empty
        ⟨"alice", "secret", "alice@example.com", none⟩).responses
      = [⟨201, .registered "注册成功" 1⟩] ∧
    (authRegister hash RegisterFaults.ok now Store.empty
        ⟨"alice", "secret", "alice@example.com", none⟩).store.users.map (fun u => u.role)
      = ["user"] := by
  constructor <;> rfl

/-! ## Minting keys (`server.js`) -/

theorem expiresAtISO_of_range (now : Time) (days : Int)
    (h : -maxTime ≤ now + days * msPerDay ∧ now + days * msPerDay ≤ maxTime) :
    expiresAtISO now days = some (now + days * msPerDay) := by
  simp [expiresAtISO, h]

theorem expiresAtISO_eq_some (now : Time) (days : Int) (t : Time)
    (h : expiresAtISO now days = some t) : t = now + days * msPerDay := by
  simp only [expiresAtISO] at h
  split_ifs at h
  simpa using h.symm

/-- The rounds of `for (i = 0; i < count; i++)` are the indices below `⌈count⌉₊`. -/
theorem mem_loop_rounds (count : ℚ) (i : Nat) :
    i ∈ List.range ⌈count⌉₊ ↔ (i : ℚ) < count := by
  rw [List.mem_range, Nat.lt_ceil]

/-- State of the gen-auth-key callbacks after `k` successful rounds out of `n`. -/
theorem genAuthKey_fold (uuid : Nat → String) (insertFails : Nat → Bool)
    (stamp : Nat → Time) (now : Time) (s : Store) (userId : Nat) (n : Nat) (days : Int)
    (hdistinct : ∀ i < n, ∀ j < n, uuid i = uuid j → i = j)
    (hok : ∀ i < n, insertFails i = false)
    (hfresh : ∀ i < n, uuid i ∉ s.auth_keys.map (fun k => k.key_value))
    (k : Nat) (hk : k ≤ n) :
    ∃ rows : List AuthKey, ∃ seq : Nat,
      (List.range k).foldl
        (genCallback uuid insertFails stamp userId (n : ℚ) days (now + days * msPerDay))
        ⟨s, [], []⟩
      = ⟨{ s with auth_keys := s.auth_keys ++ rows, seq_auth_keys := seq },
          (List.range k).map uuid,
          if k = n ∧ 0 < n then [⟨200, .keys ((List.range n).map uuid) n days⟩] else []⟩ ∧
      rows.map (fun r => r.key_value) = (List.range k).map uuid ∧
      ∀ r ∈ rows, r.minted now stamp userId days := by
  induction k with
  | zero =>
    refine ⟨[], s.seq_auth_keys, ?_, rfl, by simp⟩
    have : ¬ (0 = n ∧ 0 < n) := by omega
    simp [this]
  | succ k ih =>
    obtain ⟨rows, seq, hfold, hkeys, hrows⟩ := ih (by omega)
    have hkn : k < n := by omega
    have hne : ¬ (k = n ∧ 0 < n) := by omega
    rw [List.range_succ, List.foldl_append, hfold]
    simp only [List.foldl_cons, List.foldl_nil, if_neg hne]
    have hnew : uuid k ∉ (s.auth_keys ++ rows).map (fun r => r.key_value) := by
      rw [List.map_append, List.mem_append, hkeys]
      rintro (h | h)
      · exact hfresh k hkn h
      · obtain ⟨j, hj, hjk⟩ := List.mem_map.mp h
        have hjlt : j < k := List.mem_range.mp hj
        have := hdistinct j (by omega) k hkn hjk
        omega
    refine ⟨rows ++ [{ id := nextId ((s.auth_keys ++ rows).map (fun r => r.id)) seq,
                       key_value := uuid k, user_id := userId, days := days,
                       created_at := currentTimestamp (stamp k),
                       expires_at := now + days * msPerDay, is_active := true }],
            nextId ((s.auth_keys ++ rows).map (fun r => r.id)) seq, ?_, ?_, ?_⟩
    · have hlen : ((List.range k).map uuid ++ [uuid k]).length = k + 1 := by simp
      have hq : (((k + 1 : ℕ) : ℚ) = (n : ℚ)) ↔ (k + 1 = n ∧ 0 < n) := by
        rw [Nat.cast_inj]; omega
      simp only [genCallback, insertAuthKey, hok k hkn, hnew, hlen]
      by_cases hlast : k + 1 = n
      · subst hlast
        simp [List.range_succ]
      · have h2 : ¬ (k + 1 = n ∧ 0 < n) := by omega
        have h3 : ¬ (((k : ℚ) + 1) = (n : ℚ)) := by
          intro h; apply hlast; exact_mod_cast h
        simp [h2, h3, List.range_succ]
    · simp [List.range_succ, hkeys]
    · intro r hr
      rcases List.mem_append.mp hr with h | h
      · exact hrows r h
      · simp only [List.mem_singleton] at h
        subst h
        exact ⟨rfl, rfl, rfl, ⟨k, rfl⟩, rfl⟩

/-- C7 as stated fails: one key for 1000000000 days, requested by admin 1 on the empty
store at clock reading 1700000000000 with a working database, is answered with 500 by the
error middleware and no row is inserted, because the expiry is outside the `Date` range
and `toISOString` throws. -/
theorem genAuthKey_days_out_of_range :
    genAuthKey sampleUuid (fun _ => false) (fun _ => 1700000000000) 1700000000000 Store.empty 1
        ⟨some 1, some 1000000000⟩
      = ⟨Store.empty, [⟨500, .error "服务器内部错误"⟩]⟩ := by
  simp [genAuthKey, expiresAtISO, msPerDay, maxTime, reply]

/-- C7 (amended): for every admin `userId`, every positive integer `count` and every
integer `days` for which the request time plus `days` days is inside the `Date` range (in
particular every non-negative `days` up to that bound), if the tokens drawn are pairwise
distinct and every insert succeeds (no fault, no token already stored), whenever the
engine executes the inserts, gen-auth-key sends exactly one response, 200 with the `count`
pairwise distinct tokens and the echoed `count` and `days`, and the auth_keys table gains
exactly `count` rows, one per token in order, each with `user_id = userId`, the given
`days` and `expires_at = now + days` days; the other tables are unchanged. -/
theorem genAuthKey_mints (uuid : Nat → String) (insertFails : Nat → Bool)
    (stamp : Nat → Time) (now : Time) (s : Store) (userId : Nat) (count : Nat) (days : Int)
    (hcount : 0 < count)
    (hdistinct : ∀ i < count, ∀ j < count, uuid i = uuid j → i = j)
    (hok : ∀ i < count, insertFails i = false)
    (hfresh : ∀ i < count, uuid i ∉ s.auth_keys.map (fun k => k.key_value))
    (hrange : -maxTime ≤ now + days * msPerDay ∧ now + days * msPerDay ≤ maxTime) :
    (genAuthKey uuid insertFails stamp now s userId ⟨some count, some days⟩).responses
      = [⟨200, .keys ((List.range count).map uuid) count days⟩] ∧
    ((List.range count).map uuid).Nodup ∧
    ((List.range count).map uuid).length = count ∧
    (∃ rows : List AuthKey,
      (genAuthKey uuid insertFails stamp now s userId ⟨some count, some days⟩).store.auth_keys
        = s.auth_keys ++ rows ∧
      rows.map (fun r => r.key_value) = (List.range count).map uuid ∧
      ∀ r ∈ rows, r.user_id = userId ∧ r.days = days ∧
        r.expires_at = now + days * msPerDay) ∧
    (genAuthKey uuid insertFails stamp now s userId ⟨some count, some days⟩).store.users
      = s.users ∧
    (genAuthKey uuid insertFails stamp now s userId ⟨some count, some days⟩).store.devices
      = s.devices ∧
    (genAuthKey uuid insertFails stamp now s userId
      ⟨some count, some days⟩).store.wechat_accounts = s.wechat_accounts := by
  obtain ⟨rows, seq, hfold, hkeys, hrows⟩ :=
    genAuthKey_fold uuid insertFails stamp now s userId count days hdistinct hok hfresh
      count le_rfl
  have hne : ¬ (⌈(count : ℚ)⌉₊ = 0) := by
    rw [Nat.ceil_natCast]; omega
  have hres : genAuthKey uuid insertFails stamp now s userId ⟨some count, some days⟩
      = ⟨{ s with auth_keys := s.auth_keys ++ rows, seq_auth_keys := seq },
          [⟨200, .keys ((List.range count).map uuid) count days⟩]⟩ := by
    simp only [genAuthKey, Option.getD_some, if_neg hne,
      expiresAtISO_of_range now days hrange]
    rw [Nat.ceil_natCast, hfold]
    simp [hcount]
  rw [hres]
  refine ⟨rfl, ?_, by simp, ⟨rows, rfl, hkeys, ?_⟩, rfl, rfl, rfl⟩
  · rw [List.nodup_map_iff_inj_on (List.nodup_range count)]
    intro i hi j hj h
    exact hdistinct i (List.mem_range.mp hi) j (List.mem_range.mp hj) h
  · intro r hr
    obtain ⟨h1, h2, h3, _, _⟩ := hrows r hr
    exact ⟨h1, h2, h3⟩

/-- Witness for C7: admin 1 mints 5 keys for 30 days on the sample store at clock reading
1700000000000. -/
theorem genAuthKey_mints_witness :
    (genAuthKey sampleUuid (fun _ => false) (fun _ => 1700000000000) 1700000000000 sampleStore 1
        ⟨some ((5 : ℕ) : ℚ), some 30⟩).responses
      = [⟨200, .keys ((List.range 5).map sampleUuid) ((5 : ℕ) : ℚ) 30⟩] :=
  (genAuthKey_mints sampleUuid (fun _ => false) (fun _ => 1700000000000) 1700000000000
    sampleStore 1 5 30
    (by decide) (by decide) (by decide) (by decide) (by decide)).1

/-! ## Delaying and deleting keys (`server.js`) -/

theorem filter_length_eq_zero_iff {α : Type} (p : α → Bool) (l : List α) :
    (l.filter p).length = 0 ↔ ∀ a ∈ l, p a = false := by
  rw [List.length_eq_zero, List.filter_eq_nil_iff]
  simp

/-- C8 as stated fails: at clock reading 1700000000000, delaying by 1000000000 days is
answered with 500 by the error middleware, both for a key that is not stored (the claim
says 404) and for the stored key `key-bob`, whose `days` and `expires_at` stay as they
were. -/
theorem delayAuthKey_days_out_of_range :
    delayAuthKey false 1700000000000 Store.empty "key-0" 1000000000
      = ⟨Store.empty, [⟨500, .error "服务器内部错误"⟩]⟩ ∧
    delayAuthKey false 1700000000000 sampleStore "key-bob" 1000000000
      = ⟨sampleStore, [⟨500, .error "服务器内部错误"⟩]⟩ := by
  constructor <;> decide

/-- C8 (amended): for every store, key value `key` and integer `days` for which the
request time plus `days` days is inside the `Date` range, the database answering the
statement: if no auth key has `key_value = key`, delay-auth-key answers 404 and returns the
store unchanged; otherwise it answers 200, and in the auth_keys table every row with that
key value has `days` replaced by `days` and `expires_at` by `now + days` days, its id,
key_value, user_id, created_at and is_active being kept, while every other row and every
other table is unchanged. -/
theorem delayAuthKey_updates (now : Time) (s : Store) (key : String) (days : Int)
    (hrange : -maxTime ≤ now + days * msPerDay ∧ now + days * msPerDay ≤ maxTime) :
    ((∀ k ∈ s.auth_keys, k.key_value ≠ key) →
      delayAuthKey false now s key days = ⟨s, [⟨404, .error "授权码不存在"⟩]⟩) ∧
    ((∃ k ∈ s.auth_keys, k.key_value = key) →
      delayAuthKey false now s key days
        = ⟨{ s with auth_keys := s.auth_keys.map (fun k =>
              if k.key_value = key then
                ⟨k.id, k.key_value, k.user_id, days, k.created_at, now + days * msPerDay,
                  k.is_active⟩
              else k) },
            [⟨200, .message "延期成功"⟩]⟩) := by
  constructor
  · intro h
    have h0 : (s.auth_keys.filter (fun k => decide (k.key_value = key))).length = 0 := by
      rw [filter_length_eq_zero_iff]
      intro k hk
      simpa using h k hk
    simp [delayAuthKey, expiresAtISO_of_range now days hrange, h0, reply]
  · rintro ⟨k, hk, hkey⟩
    have h0 : ¬ (s.auth_keys.filter (fun k => decide (k.key_value = key))).length = 0 := by
      rw [filter_length_eq_zero_iff]
      intro h
      have := h k hk
      simp [hkey] at this
    simp only [delayAuthKey, expiresAtISO_of_range now days hrange, if_neg h0]
    simp

/-- Witness for C8: delaying `key-bob` of the sample store by 10 days at clock reading
1700000000000. -/
theorem delayAuthKey_updates_witness :
    delayAuthKey false 1700000000000 sampleStore "key-bob" 10
      = ⟨{ sampleStore with auth_keys := sampleStore.auth_keys.map (fun k =>
            if k.key_value = "key-bob" then
              ⟨k.id, k.key_value, k.user_id, 10, k.created_at,
                1700000000000 + 10 * msPerDay, k.is_active⟩
            else k) },
          [⟨200, .message "延期成功"⟩]⟩ :=
  (delayAuthKey_updates 1700000000000 sampleStore "key-bob" 10 (by decide)).2 (by decide)

/-- C10: for every store and key value `key`, the database answering the statement:
when a row with `key_value = key` exists, `DELETE /api/admin/auth-key/:key` answers 200 and
removes exactly the auth_keys rows with that key value, every other table being unchanged;
when none exists it answers 404 and returns the store unchanged.  Whatever the outcome of
the statement, the wechat_accounts table is unchanged: an account whose `auth_key` is `key`
stays. -/
theorem deleteAuthKey_removes_key_only (s : Store) (key : String) :
    ((∃ k ∈ s.auth_keys, k.key_value = key) →
      deleteAuthKey false s key
        = ⟨{ s with auth_keys := s.auth_keys.filter (fun k => k.key_value ≠ key) },
            [⟨200, .message "删除成功"⟩]⟩) ∧
    ((∀ k ∈ s.auth_keys, k.key_value ≠ key) →
      deleteAuthKey false s key = ⟨s, [⟨404, .error "授权码不存在"⟩]⟩) ∧
    (∀ deleteFails, (deleteAuthKey deleteFails s key).store.wechat_accounts
      = s.wechat_accounts) := by
  refine ⟨?_, ?_, ?_⟩
  · rintro ⟨k, hk, hkey⟩
    have h0 : ¬ (s.auth_keys.filter (fun k => decide (k.key_value = key))).length = 0 := by
      rw [filter_length_eq_zero_iff]
      intro h
      have := h k hk
      simp [hkey] at this
    simp [deleteAuthKey, h0]
  · intro h
    have h0 : (s.auth_keys.filter (fun k => decide (k.key_value = key))).length = 0 := by
      rw [filter_length_eq_zero_iff]
      intro k hk
      simpa using h k hk
    simp [deleteAuthKey, h0, reply]
  · intro deleteFails
    unfold deleteAuthKey
    split_ifs <;> rfl

/-! ## The expiry of a key along the key operations -/

theorem insertAuthKey_keys (fails : Bool) (stamp : Time) (s s1 : Store) (kv : String)
    (userId : Nat) (days : Int) (expiresAt : Time)
    (h : insertAuthKey fails stamp s kv userId days expiresAt = some s1) :
    ∃ id, s1.auth_keys = s.auth_keys ++
      [⟨id, kv, userId, days, currentTimestamp stamp, expiresAt, true⟩] := by
  unfold insertAuthKey at h
  split_ifs at h
  simp only [Option.some.injEq] at h
  subst h
  exact ⟨_, rfl⟩

theorem insertWechatAccount_keys (fails : Bool) (now : Time) (s s1 : Store) (ak : String)
    (dak nick un av : Option String) (status : String) (id : Nat)
    (h : insertWechatAccount fails now s ak dak nick un av status = some (s1, id)) :
    s1.auth_keys = s.auth_keys := by
  unfold insertWechatAccount at h
  split_ifs at h
  simp only [Option.some.injEq, Prod.mk.injEq] at h
  obtain ⟨h, _⟩ := h
  subst h
  rfl

/-- One insert of gen-auth-key: a row of the table afterwards is a row of `s0` or counts
its expiry from the clock reading `now` of the handler. -/
theorem genCallback_rows (uuid : Nat → String) (insertFails : Nat → Bool)
    (stamp : Nat → Time) (now : Time) (userId : Nat) (count : ℚ) (days : Int) (s0 : Store)
    (st : GenState) (i : Nat)
    (h : ∀ k ∈ st.store.auth_keys,
      k ∈ s0.auth_keys ∨ k.expires_at = now + k.days * msPerDay) :
    ∀ k ∈ (genCallback uuid insertFails stamp userId count days (now + days * msPerDay)
      st i).store.auth_keys,
      k ∈ s0.auth_keys ∨ k.expires_at = now + k.days * msPerDay := by
  unfold genCallback
  cases hi : insertAuthKey (insertFails i) (stamp i) st.store (uuid i) userId days
      (now + days * msPerDay) with
  | none => simpa using h
  | some s1 =>
    obtain ⟨id, hs1⟩ := insertAuthKey_keys _ _ _ _ _ _ _ _ hi
    have hnew : ∀ k ∈ s1.auth_keys,
        k ∈ s0.auth_keys ∨ k.expires_at = now + k.days * msPerDay := by
      intro k hk
      rw [hs1] at hk
      rcases List.mem_append.mp hk with hk | hk
      · exact h k hk
      · simp only [List.mem_singleton] at hk
        subst hk
        exact Or.inr rfl
    simp only []
    split_ifs <;> exact hnew

theorem genFold_rows (uuid : Nat → String) (insertFails : Nat → Bool)
    (stamp : Nat → Time) (now : Time) (userId : Nat) (count : ℚ) (days : Int) (s0 : Store)
    (l : List Nat) (st : GenState)
    (h : ∀ k ∈ st.store.auth_keys,
      k ∈ s0.auth_keys ∨ k.expires_at = now + k.days * msPerDay) :
    ∀ k ∈ (l.foldl (genCallback uuid insertFails stamp userId count days
      (now + days * msPerDay)) st).store.auth_keys,
      k ∈ s0.auth_keys ∨ k.expires_at = now + k.days * msPerDay := by
  induction l generalizing st with
  | nil => simpa using h
  | cons i l ih =>
    simp only [List.foldl_cons]
    exact ih _ (genCallback_rows uuid insertFails stamp now userId count days s0 st i h)

theorem adminCreateWechatAccount_keys (uuid : String) (f : CreateAccountFaults)
    (stamp now : Time) (s : Store) (userId : Nat) (body : AccountBody) :
    (adminCreateWechatAccount uuid f stamp now s userId body).store.auth_keys
      = s.auth_keys ∨
    ∃ id, (adminCreateWechatAccount uuid f stamp now s userId body).store.auth_keys
      = s.auth_keys ++ [⟨id, uuid, userId, body.days.getD 30, currentTimestamp stamp,
          now + body.days.getD 30 * msPerDay, true⟩] := by
  unfold adminCreateWechatAccount
  simp only []
  split
  · left
    repeat' split
    all_goals first
      | rfl
      | exact insertWechatAccount_keys _ _ _ _ _ _ _ _ _ _ _ (by assumption)
  · split
    · left; rfl
    · next t he =>
      have ht := expiresAtISO_eq_some _ _ _ he
      subst ht
      split
      · left; rfl
      · next s1 hk =>
        obtain ⟨id, hs1⟩ := insertAuthKey_keys _ _ _ _ _ _ _ _ hk
        right
        refine ⟨id, ?_⟩
        repeat' split
        all_goals first
          | exact hs1
          | (rw [insertWechatAccount_keys _ _ _ _ _ _ _ _ _ _ _ (by assumption)]; exact hs1)

/-- One key operation handled at clock reading `now`: a row of the table afterwards is a
row of the table before, left as it was, or counts its expiry from `now`. -/
theorem keyOp_rows (op : KeyOp) (now : Time) (s : Store) :
    ∀ k ∈ (op.run now s).store.auth_keys,
      k ∈ s.auth_keys ∨ k.expires_at = now + k.days * msPerDay := by
  have same : ∀ k ∈ s.auth_keys,
      k ∈ s.auth_keys ∨ k.expires_at = now + k.days * msPerDay := fun k hk => Or.inl hk
  cases op with
  | gen uuid insertFails stamp userId body =>
    simp only [KeyOp.run, genAuthKey]
    split_ifs
    · exact same
    · cases he : expiresAtISO now (body.days.getD 30) with
      | none => exact same
      | some t =>
        have ht := expiresAtISO_eq_some _ _ _ he
        subst ht
        exact genFold_rows uuid insertFails stamp now userId _ _ s _ _ same
  | create uuid f stamp userId body =>
    simp only [KeyOp.run]
    rcases adminCreateWechatAccount_keys uuid f stamp now s userId body with hk | ⟨id, hk⟩
    · rw [hk]; exact same
    · rw [hk]
      intro k hk1
      rcases List.mem_append.mp hk1 with hk1 | hk1
      · exact Or.inl hk1
      · simp only [List.mem_singleton] at hk1
        subst hk1
        exact Or.inr rfl
  | delay updateFails key days =>
    simp only [KeyOp.run, delayAuthKey]
    cases he : expiresAtISO now days with
    | none => exact same
    | some t =>
      have ht := expiresAtISO_eq_some _ _ _ he
      subst ht
      simp only []
      split_ifs
      · exact same
      · exact same
      · intro k hk
        simp only [List.mem_map] at hk
        obtain ⟨k0, hk0, rfl⟩ := hk
        split_ifs
        · exact Or.inr rfl
        · exact Or.inl hk0
  | delete deleteFails key =>
    simp only [KeyOp.run, deleteAuthKey]
    split_ifs
    · exact same
    · exact same
    · intro k hk
      exact Or.inl (List.mem_of_mem_filter hk)

theorem delayedStore_keys :
    delayedStore.auth_keys = [⟨1, "key-0", 1, 30, 0, 2678400000, true⟩] := by
  simp [delayedStore, mintedStore, KeyOp.run, genAuthKey, genCallback, insertAuthKey,
    delayAuthKey, expiresAtISO, msPerDay, maxTime, Store.empty, nextId, currentTimestamp,
    sampleUuid, List.range_succ]
  decide

theorem lateStampStore_keys :
    lateStampStore.auth_keys = [⟨1, "key-0", 1, 30, 1000, 2592000947, true⟩] := by
  simp [lateStampStore, KeyOp.run, genAuthKey, genCallback, insertAuthKey,
    expiresAtISO, msPerDay, maxTime, Store.empty, nextId, currentTimestamp,
    sampleUuid, List.range_succ]
  decide

/-- C9 as stated fails, in two ways.  After admin 1 mints one key for 30 days at clock
reading 0 and delays it by 30 days one day later, the store is reachable by key operations
and its key has `created_at = 0`, `days = 30` and `expires_at` 31 days after `created_at`.
And after admin 1 mints one key for 30 days at clock reading 947, the engine executing the
insert at 1004, the key has `created_at = 1000`, later than the clock reading from which
its expiry counts, and `expires_at` is 53 milliseconds short of `created_at` plus 30
days. -/
theorem expiry_not_created_plus_days :
    (∃ written, Reachable delayedStore 86400000 written) ∧
    (∃ k ∈ delayedStore.auth_keys, k.expires_at ≠ k.created_at + k.days * msPerDay) ∧
    (∃ written, Reachable lateStampStore 947 written) ∧
    (∃ k ∈ lateStampStore.auth_keys,
      k.expires_at ≠ k.created_at + k.days * msPerDay ∧
      k.expires_at - k.days * msPerDay < k.created_at) := by
  refine ⟨⟨_, Reachable.step _ 86400000
      (Reachable.step _ 0 (Reachable.init 0 (fun _ => 0)) le_rfl) (by decide)⟩, ?_,
    ⟨_, Reachable.step _ 947 (Reachable.init 947 (fun _ => 0)) le_rfl⟩, ?_⟩
  · rw [delayedStore_keys]
    exact ⟨_, List.mem_singleton.mpr rfl, by decide⟩
  · rw [lateStampStore_keys]
    exact ⟨_, List.mem_singleton.mpr rfl, by decide, by decide⟩

/-- C9 (amended): in every store reachable from the empty store by the key operations
(gen-auth-key, WeChat-account creation, delay-auth-key, delete auth-key) handled at
non-decreasing clock readings, whenever the engine executes the inserts, every auth key
satisfies `expires_at = written + days` days, where `written` is the clock reading of the
request that inserted the row or last rewrote it (the creation of the key, or its latest
delay, which counts the new `days` from the time of the delay), and `written` is not after
the current clock reading.  `created_at` takes no part in it. -/
theorem reachable_expiry_base (s : Store) (t : Time) (written : AuthKey → Time)
    (h : Reachable s t written) :
    ∀ k ∈ s.auth_keys, k.expires_at = written k + k.days * msPerDay ∧ written k ≤ t := by
  induction h with
  | init t written => intro k hk; simp [Store.empty] at hk
  | @step s t written op now _ hle ih =>
    intro k hk
    unfold lastWrite
    by_cases hmem : k ∈ s.auth_keys
    · rw [if_pos hmem]
      exact ⟨(ih k hmem).1, le_trans (ih k hmem).2 hle⟩
    · rw [if_neg hmem]
      rcases keyOp_rows op now s k hk with h1 | h1
      · exact absurd h1 hmem
      · exact ⟨h1, le_refl now⟩

/-- Witness for C9: the key of the store after one key is minted at clock reading 0 and
delayed a day later; the request that last wrote the row is the delay. -/
theorem reachable_expiry_base_witness :
    (⟨1, "key-0", 1, 30, 0, 2678400000, true⟩ : AuthKey).expires_at
        = lastWrite mintedStore 86400000 (lastWrite Store.empty 0 (fun _ => 0))
            ⟨1, "key-0", 1, 30, 0, 2678400000, true⟩
          + (⟨1, "key-0", 1, 30, 0, 2678400000, true⟩ : AuthKey).days * msPerDay ∧
    lastWrite mintedStore 86400000 (lastWrite Store.empty 0 (fun _ => 0))
        ⟨1, "key-0", 1, 30, 0, 2678400000, true⟩ ≤ 86400000 :=
  reachable_expiry_base delayedStore 86400000 _
    (Reachable.step (.delay false "key-0" 30) 86400000
      (Reachable.step (.gen sampleUuid (fun _ => false) (fun _ => 0) 1 ⟨some 1, some 30⟩) 0
        (Reachable.init 0 (fun _ => 0)) le_rfl) (by decide))
    ⟨1, "key-0", 1, 30, 0, 2678400000, true⟩
    (by rw [delayedStore_keys]; exact List.mem_singleton.mpr rfl)

/-! ## Deleting a WeChat account -/

theorem userDeleteWechatAccount_auth_keys (db : Handle) (deleteFails : Bool) (s : Store)
    (userId id : Nat) :
    (userDeleteWechatAccount db deleteFails s userId id).store.auth_keys = s.auth_keys := by
  unfold userDeleteWechatAccount
  cases db <;> simp only [Handle.andThen, reply] <;> split_ifs <;> rfl

/-- C11 (evaluation at the failing input): in the sample store user 2 owns account 1, whose
`auth_key` is `key-bob`.  After the user-scoped `DELETE /api/wechat-accounts/1` of
`server/server.js` has run its statement, the account row is gone and the auth_keys table
is what it was: the row with `key_value = key-bob` is still there.  With the handle of
`server/server.js` no response is sent; with a handle that runs the callback the answer is
the success response, and the key is still there. -/
theorem userDelete_keeps_auth_key :
    (userDeleteWechatAccount serverDb false sampleStore 2 1).store.wechat_accounts = [] ∧
    (userDeleteWechatAccount serverDb false sampleStore 2 1).store.auth_keys
      = [⟨1, "key-root", 1, 30, 0, 2592000000, true⟩,
         ⟨2, "key-bob", 2, 30, 0, 2592000000, true⟩] ∧
    (userDeleteWechatAccount serverDb false sampleStore 2 1).responses = [] ∧
    userDeleteWechatAccount Handle.sqlite false sampleStore 2 1
      = ⟨{ sampleStore with wechat_accounts := [] },
          [⟨200, .message "微信账号删除成功"⟩]⟩ := by
  decide

/-- C12: for every store and account id, the two statements on wechat_accounts being
answered by the database: when no account has that id, the admin
`DELETE /api/admin/wechat-accounts/:id` answers 404 and returns the store unchanged; when
the account exists, its row is removed, the auth_keys rows with `key_value` equal to the
account's `auth_key` are removed, and the answer is the success response; and when the key
deletion is the one statement that fails, the account row is removed all the same, the
auth_keys table is left as it was and the answer is still the success response. -/
theorem adminDeleteWechatAccount_cascade (s : Store) (id : Nat) :
    ((∀ a ∈ s.wechat_accounts, a.id ≠ id) →
      ∀ f : DeleteAccountFaults, f.selectAccount = false →
        adminDeleteWechatAccount f s id = ⟨s, [⟨404, .error "微信账号不存在"⟩]⟩) ∧
    (∀ account, s.wechat_accounts.find? (fun a => a.id = id) = some account →
      adminDeleteWechatAccount ⟨false, false, false⟩ s id
        = ⟨{ s with
              wechat_accounts := s.wechat_accounts.filter (fun a => a.id ≠ id)
              auth_keys := s.auth_keys.filter (fun k => k.key_value ≠ account.auth_key) },
            [⟨200, .message "微信账号删除成功"⟩]⟩ ∧
      adminDeleteWechatAccount ⟨false, false, true⟩ s id
        = ⟨{ s with wechat_accounts := s.wechat_accounts.filter (fun a => a.id ≠ id) },
            [⟨200, .message "微信账号删除成功"⟩]⟩) := by
  constructor
  · intro h f hf
    have h0 : s.wechat_accounts.find? (fun a => decide (a.id = id)) = none :=
      find?_none_of_forall _ _ (by simpa using h)
    simp [adminDeleteWechatAccount, hf, h0, reply]
  · intro account hfind
    simp [adminDeleteWechatAccount, hfind, reply]

/-! ## Creating a WeChat account through `server/server.js` -/

/-- With a handle that runs the callbacks, the fresh-creation path of the user-scoped
create handler mints one key and one account in `waiting`, both owned by the requester. -/
theorem userCreate_fresh_with_callbacks (uuid : String) (stamp now : Time) (s : Store)
    (userId : Nat) (body : AccountBody)
    (hno : truthy body.auth_key = false)
    (hrange : -maxTime ≤ now + body.days.getD 30 * msPerDay ∧
      now + body.days.getD 30 * msPerDay ≤ maxTime)
    (hkey : uuid ∉ s.auth_keys.map (fun k => k.key_value))
    (hacc : uuid ∉ s.wechat_accounts.map (fun a => a.auth_key)) :
    userCreateWechatAccount Handle.sqlite uuid ⟨false, false, false, false⟩ stamp now s
        userId body
      = ⟨{ s with
            auth_keys := s.auth_keys ++
              [⟨nextId (s.auth_keys.map (fun k => k.id)) s.seq_auth_keys, uuid, userId,
                body.days.getD 30, currentTimestamp stamp,
                now + body.days.getD 30 * msPerDay, true⟩]
            wechat_accounts := s.wechat_accounts ++
              [⟨nextId (s.wechat_accounts.map (fun a => a.id)) s.seq_wechat_accounts, uuid,
                none,
                some (if truthy body.nickname then body.nickname.getD "" else "新微信账号"),
                none, none, "waiting", none, currentTimestamp now, currentTimestamp now,
                true, none, some userId⟩]
            seq_auth_keys := nextId (s.auth_keys.map (fun k => k.id)) s.seq_auth_keys
            seq_wechat_accounts :=
              nextId (s.wechat_accounts.map (fun a => a.id)) s.seq_wechat_accounts },
          [⟨200, .accountCreated "微信账号创建成功"
            (nextId (s.wechat_accounts.map (fun a => a.id)) s.seq_wechat_accounts) uuid
            (if truthy body.nickname then body.nickname.getD "" else "新微信账号") "waiting"
            (body.days.getD 30)⟩]⟩ := by
  simp only [userCreateWechatAccount, hno, expiresAtISO_of_range _ _ hrange,
    insertAuthKey, insertOwnedWechatAccount, Handle.andThen]
  simp [hkey, hacc]

/-- C13 (evaluation at the failing input): user 2 of the sample store posts a create
request without `auth_key` (nickname `bot`, default 30 days) to `POST /api/wechat-accounts`
of `server/server.js`; the token drawn is `key-new`, the database rejects nothing and
executes the insert 42 milliseconds after the handler read the clock.  The
auth_keys table gains the row for `key-new`, the wechat_accounts table gains no row, and no
response is sent: the callback holding the second insert and the response is dropped by
the handle. -/
theorem userCreate_fresh_stops_after_key :
    (userCreateWechatAccount serverDb "key-new" ⟨false, false, false, false⟩
        1700000000042 1700000000000 sampleStore 2
        ⟨some "bot", none, none, none, none, none, none⟩).store.auth_keys
      = sampleStore.auth_keys ++
          [⟨3, "key-new", 2, 30, 1700000000000, 1702592000000, true⟩] ∧
    (userCreateWechatAccount serverDb "key-new" ⟨false, false, false, false⟩
        1700000000042 1700000000000 sampleStore 2
        ⟨some "bot", none, none, none, none, none, none⟩).store.wechat_accounts
      = sampleStore.wechat_accounts ∧
    (userCreateWechatAccount serverDb "key-new" ⟨false, false, false, false⟩
        1700000000042 1700000000000 sampleStore 2
        ⟨some "bot", none, none, none, none, none, none⟩).responses = [] := by
  decide

/-- With a handle that runs the callbacks, a create request whose `auth_key` names an
account of the requester rewrites that account in place. -/
theorem userCreate_update_with_callbacks (uuid : String) (stamp now : Time) (s : Store)
    (userId : Nat) (body : AccountBody) (key : String) (account : WechatAccount)
    (hkey : body.auth_key = some key) (hne : key ≠ "")
    (hown : s.wechat_accounts.find? (fun a => a.auth_key = key ∧ a.user_id = some userId)
      = some account) :
    userCreateWechatAccount Handle.sqlite uuid ⟨false, false, false, false⟩ stamp now s
        userId body
      = ⟨{ s with wechat_accounts := s.wechat_accounts.map (fun a =>
            if a.auth_key = key ∧ a.user_id = some userId then
              ⟨a.id, a.auth_key, body.device_auth_key, body.nickname, body.username,
                body.avatar,
                if truthy body.status then body.status.getD "online" else "online",
                some now, a.created_at, now, a.is_active, a.qr_code_url, a.user_id⟩
            else a) },
          [⟨200, .accountWritten "微信账号信息更新成功" account.id key
            body.device_auth_key body.nickname body.username body.avatar
            (if truthy body.status then body.status.getD "online" else "online")⟩]⟩ := by
  have ht : truthy (some key) = true := by simp [truthy, hne]
  have hown1 := hown
  simp only [Bool.decide_and] at hown1
  simp [userCreateWechatAccount, hkey, ht, Handle.andThen, hown1]

/-- C14 (evaluation at the failing input): user 2 of the sample store owns the account
with `auth_key = key-bob` and nickname `bob-bot`, and posts a create request with that
`auth_key`, nickname `renamed`, username `wxid`, device key `dak` and status `offline` to
`POST /api/wechat-accounts` of `server/server.js`.  The store is returned as it was (the
account keeps its nickname, status and empty device key) and no response is sent: the
callback holding the update and the response is dropped by the handle. -/
theorem userCreate_update_changes_nothing :
    userCreateWechatAccount serverDb "key-new" ⟨false, false, false, false⟩
        1700000000042 1700000000000 sampleStore 2
        ⟨some "renamed", none, some "key-bob", some "wxid", none, some "offline",
          some "dak"⟩
      = ⟨sampleStore, []⟩ ∧
    sampleStore.wechat_accounts.map (fun a => (a.nickname, a.status, a.device_auth_key))
      = [(some "bob-bot", "waiting", none)] := by
  decide

/-! ## The login flow of a WeChat account (`server/server.js`) -/

/-- C15: for every requester `userId` and every account the requester owns under
`auth_key`, the database answering the statements: when the account's status is
`scanning`, simulate-scan answers 200 and every row addressed by `auth_key` and `userId`
gets status `scanned_confirming` and `updated_at` the database time, all its other fields
and all other rows being kept; when the status is anything else, it answers 400 with a
message that contains the current status, and returns the store unchanged. -/
theorem simulateScan_transition (now : Time) (s : Store) (userId : Nat)
    (auth_key : String) (account : WechatAccount)
    (hown : s.wechat_accounts.find? (ownedBy auth_key userId) = some account) :
    (account.status = "scanning" →
      simulateScan FlowFaults.ok now s userId auth_key
        = ⟨{ s with wechat_accounts := s.wechat_accounts.map (fun a =>
              if ownedBy auth_key userId a then
                ⟨a.id, a.auth_key, a.device_auth_key, a.nickname, a.username, a.avatar,
                  "scanned_confirming", a.last_login, a.created_at, currentTimestamp now,
                  a.is_active, a.qr_code_url, a.user_id⟩
              else a) },
            [⟨200, .transition "模拟扫描成功, 等待用户确认" auth_key "scanned_confirming"
              none⟩]⟩) ∧
    (account.status ≠ "scanning" →
      simulateScan FlowFaults.ok now s userId auth_key
        = ⟨s, [⟨400, .error ("微信账号状态为 " ++ account.status ++
            ", 不能模拟扫描. 必须为 'scanning'.")⟩]⟩) := by
  constructor
  · intro h
    simp [simulateScan, FlowFaults.ok, hown, h]
  · intro h
    simp [simulateScan, FlowFaults.ok, hown, h, reply]

/-- Witness for C15: user 2 owns the account `key-bob`, here in status `scanning`. -/
theorem simulateScan_transition_witness :
    simulateScan FlowFaults.ok 1700000000000 (storeWithStatus "scanning" none) 2 "key-bob"
      = ⟨{ storeWithStatus "scanning" none with
            wechat_accounts := (storeWithStatus "scanning" none).wechat_accounts.map
              (fun a =>
                if ownedBy "key-bob" 2 a then
                  ⟨a.id, a.auth_key, a.device_auth_key, a.nickname, a.username, a.avatar,
                    "scanned_confirming", a.last_login, a.created_at,
                    currentTimestamp 1700000000000, a.is_active, a.qr_code_url, a.user_id⟩
                else a) },
          [⟨200, .transition "模拟扫描成功, 等待用户确认" "key-bob" "scanned_confirming"
            none⟩]⟩ :=
  (simulateScan_transition 1700000000000 (storeWithStatus "scanning" none) 2 "key-bob"
    ⟨1, "key-bob", none, some "bob-bot", none, none, "scanning", none, 0, 0, true, none,
      some 2⟩ (by decide)).1 (by decide)

/-- C16: for every requester `userId` and every account the requester owns under
`auth_key`, the database answering the statements: when the account's status is
`scanned_confirming`, simulate-confirm with `success` true answers 200 and sets status
`online`, the device key `sim_dak_` followed by the token drawn, and `last_login` and
`updated_at` the database time; with `success` false it answers 200 and sets status
`failed`, an empty device key and `updated_at`; other fields and rows are kept.  When the
status is anything else (`waiting` for one), it answers 400 with a message that contains
the current status, and returns the store unchanged. -/
theorem simulateConfirm_transition (uuid : String) (now : Time) (s : Store) (userId : Nat)
    (auth_key : String) (account : WechatAccount)
    (hown : s.wechat_accounts.find? (ownedBy auth_key userId) = some account) :
    (account.status = "scanned_confirming" →
      simulateConfirm uuid FlowFaults.ok now s userId auth_key true
        = ⟨{ s with wechat_accounts := s.wechat_accounts.map (fun a =>
              if ownedBy auth_key userId a then
                ⟨a.id, a.auth_key, some ("sim_dak_" ++ uuid), a.nickname, a.username,
                  a.avatar, "online", some (currentTimestamp now), a.created_at,
                  currentTimestamp now, a.is_active, a.qr_code_url, a.user_id⟩
              else a) },
            [⟨200, .transition "模拟确认成功, 状态: online" auth_key "online"
              (some ("sim_dak_" ++ uuid))⟩]⟩ ∧
      simulateConfirm uuid FlowFaults.ok now s userId auth_key false
        = ⟨{ s with wechat_accounts := s.wechat_accounts.map (fun a =>
              if ownedBy auth_key userId a then
                ⟨a.id, a.auth_key, none, a.nickname, a.username, a.avatar, "failed",
                  a.last_login, a.created_at, currentTimestamp now, a.is_active,
                  a.qr_code_url, a.user_id⟩
              else a) },
            [⟨200, .transition "模拟确认成功, 状态: failed" auth_key "failed" none⟩]⟩) ∧
    (account.status ≠ "scanned_confirming" →
      ∀ success, simulateConfirm uuid FlowFaults.ok now s userId auth_key success
        = ⟨s, [⟨400, .error ("微信账号状态为 " ++ account.status ++
            ", 不能模拟确认. 必须为 'scanned_confirming'.")⟩]⟩) := by
  constructor
  · intro h
    constructor
    · simp [simulateConfirm, FlowFaults.ok, hown, h]
    · simp [simulateConfirm, FlowFaults.ok, hown, h]
  · intro h success
    simp [simulateConfirm, FlowFaults.ok, hown, h, reply]

/-- Witness for C16: user 2 owns the account `key-bob`, here in status `waiting`, and
simulate-confirm is refused. -/
theorem simulateConfirm_transition_witness :
    simulateConfirm "u1" FlowFaults.ok 1700000000000 (storeWithStatus "waiting" none) 2
        "key-bob" true
      = ⟨storeWithStatus "waiting" none,
          [⟨400, .error ("微信账号状态为 " ++ "waiting" ++
            ", 不能模拟确认. 必须为 'scanned_confirming'.")⟩]⟩ :=
  (simulateConfirm_transition "u1" 1700000000000 (storeWithStatus "waiting" none) 2
    "key-bob"
    ⟨1, "key-bob", none, some "bob-bot", none, none, "waiting", none, 0, 0, true, none,
      some 2⟩ (by decide)).2 (by decide) true

/-- C17 as stated fails: user 2 owns the account `key-bob`, which is `online` with a bound
device key; the QR request is not refused: it answers 200 and the account is now
`scanning` with the new `qr_code_url`. -/
theorem qrWakeupLogin_from_online :
    qrWakeupLogin "u1" FlowFaults.ok 1700000000000 (storeWithStatus "online" (some "dak")) 2
        (some "key-bob")
      = ⟨{ storeWithStatus "online" (some "dak") with
            wechat_accounts :=
              [⟨1, "key-bob", some "dak", some "bob-bot", none, none, "scanning", none, 0,
                1700000000000, true, some "https://example.com/qr/u1.png", some 2⟩] },
          [⟨200, .qrIssued "请扫描二维码登录" "https://example.com/qr/u1.png" "key-bob"
            "scanning"⟩]⟩ := by
  decide

/-- C17 (amended): for every requester `userId` and every account the requester owns under
`auth_key`, whatever the account's current status, the database answering the statements,
the QR request of `server/server.js` answers 200 with the new QR URL and status
`scanning`, and every row addressed by `auth_key` and `userId` gets status `scanning`,
that `qr_code_url` and `updated_at` the database time; all other fields and rows are kept.
No status is refused. -/
theorem qrWakeupLogin_any_status (uuid : String) (now : Time) (s : Store) (userId : Nat)
    (auth_key : String) (account : WechatAccount)
    (hne : auth_key ≠ "")
    (hown : s.wechat_accounts.find? (ownedBy auth_key userId) = some account) :
    qrWakeupLogin uuid FlowFaults.ok now s userId (some auth_key)
      = ⟨{ s with wechat_accounts := s.wechat_accounts.map (fun a =>
            if ownedBy auth_key userId a then
              ⟨a.id, a.auth_key, a.device_auth_key, a.nickname, a.username, a.avatar,
                "scanning", a.last_login, a.created_at, currentTimestamp now, a.is_active,
                some ("https://example.com/qr/" ++ uuid ++ ".png"), a.user_id⟩
            else a) },
          [⟨200, .qrIssued "请扫描二维码登录" ("https://example.com/qr/" ++ uuid ++ ".png")
            auth_key "scanning"⟩]⟩ := by
  simp [qrWakeupLogin, FlowFaults.ok, truthy, hne, hown]

/-- Witness for C17: the QR request for the account `key-bob` of user 2 in status
`failed`. -/
theorem qrWakeupLogin_any_status_witness :
    qrWakeupLogin "u1" FlowFaults.ok 1700000000000 (storeWithStatus "failed" none) 2
        (some "key-bob")
      = ⟨{ storeWithStatus "failed" none with
            wechat_accounts := (storeWithStatus "failed" none).wechat_accounts.map
              (fun a =>
                if ownedBy "key-bob" 2 a then
                  ⟨a.id, a.auth_key, a.device_auth_key, a.nickname, a.username, a.avatar,
                    "scanning", a.last_login, a.created_at,
                    currentTimestamp 1700000000000, a.is_active,
                    some ("https://example.com/qr/" ++ "u1" ++ ".png"), a.user_id⟩
                else a) },
          [⟨200, .qrIssued "请扫描二维码登录" ("https://example.com/qr/" ++ "u1" ++ ".png")
            "key-bob" "scanning"⟩]⟩ :=
  qrWakeupLogin_any_status "u1" 1700000000000 (storeWithStatus "failed" none) 2 "key-bob"
    ⟨1, "key-bob", none, some "bob-bot", none, none, "failed", none, 0, 0, true, none,
      some 2⟩ (by decide) (by decide)

/-! ## Wakeup login and the role guard (`server.js`) -/

/-- C18: for every store, wakeup-login of `server.js` answers 400 when `auth_key` is
missing (absent or empty), 404 when the lookup finds no account with that `auth_key`, and
400 when the account found has a null or empty `device_auth_key`; in each of the three
cases no call to the gateway is made and the store is returned unchanged. -/
theorem wakeupLogin_rejections (gateway : String → GatewayOutcome)
    (selectFails updateFails : Bool) (now : Time) (s : Store) :
    (∀ auth_key, truthy auth_key = false →
      wakeupLogin gateway selectFails updateFails now s auth_key
        = ⟨s, [⟨400, .error "缺少授权码参数"⟩], []⟩) ∧
    (∀ key, key ≠ "" → (∀ a ∈ s.wechat_accounts, a.auth_key ≠ key) →
      wakeupLogin gateway false updateFails now s (some key)
        = ⟨s, [⟨404, .error "微信账号不存在"⟩], []⟩) ∧
    (∀ key account, key ≠ "" →
      s.wechat_accounts.find? (fun a => a.auth_key = key) = some account →
      truthy account.device_auth_key = false →
      wakeupLogin gateway false updateFails now s (some key)
        = ⟨s, [⟨400, .error "该账号未绑定设备，请先扫码登录"⟩], []⟩) := by
  refine ⟨?_, ?_, ?_⟩
  · intro auth_key h
    simp [wakeupLogin, h]
  · intro key hne h
    have ht : truthy (some key) = true := by simp [truthy, hne]
    have h0 : s.wechat_accounts.find? (fun a => decide (a.auth_key = key)) = none :=
      find?_none_of_forall _ _ (by simpa using h)
    simp [wakeupLogin, ht, h0]
  · intro key account hne hfind hdak
    have ht : truthy (some key) = true := by simp [truthy, hne]
    simp [wakeupLogin, ht, hfind, hdak]

/-- C19 as stated fails: the account `key-bob` has the device key `dak`, and the gateway
replies with `Code` 500 and an empty `Message`; the 400 response carries the text
`未知错误` in place of the gateway's message. -/
theorem wakeupLogin_empty_message :
    wakeupLogin (sampleGateway (.reply ⟨some 500, some "", none⟩)) false false
        1700000000000 (storeWithStatus "offline" (some "dak")) (some "key-bob")
      = ⟨storeWithStatus "offline" (some "dak"),
          [⟨400, .wakeupError "唤醒登录失败" "未知错误"⟩], ["dak"]⟩ := by
  decide

/-- C19 (amended): for every account found under `auth_key` with a non-empty
`device_auth_key` and every gateway reply `d`, the gateway is called once with that device
key.  If `d.Code` is 200, wakeup-login answers 200 with `success`, and `d.Data`, and, the
update being accepted by the database, every account with that `auth_key` gets status
`online` and `last_login` and `updated_at` set to `now`, all other fields and rows being
kept.  If `d.Code` is anything else, it answers 400 carrying `d.Message`, or the text
`未知错误` when `d.Message` is absent or empty, and the store is unchanged. -/
theorem wakeupLogin_reply (gateway : String → GatewayOutcome) (now : Time) (s : Store)
    (key deviceKey : String) (account : WechatAccount) (d : GatewayReply)
    (hne : key ≠ "")
    (hfind : s.wechat_accounts.find? (fun a => a.auth_key = key) = some account)
    (hdak : account.device_auth_key = some deviceKey) (hbound : deviceKey ≠ "")
    (hreply : gateway deviceKey = .reply d) :
    (d.Code = some 200 →
      wakeupLogin gateway false false now s (some key)
        = ⟨{ s with wechat_accounts := s.wechat_accounts.map (fun a =>
              if a.auth_key = key then
                ⟨a.id, a.auth_key, a.device_auth_key, a.nickname, a.username, a.avatar,
                  "online", some now, a.created_at, now, a.is_active, a.qr_code_url,
                  a.user_id⟩
              else a) },
            [⟨200, .wakeupOk "唤醒登录成功" d.Data⟩], [deviceKey]⟩) ∧
    (d.Code ≠ some 200 →
      ∀ updateFails, wakeupLogin gateway false updateFails now s (some key)
        = ⟨s, [⟨400, .wakeupError "唤醒登录失败"
            (if truthy d.Message then d.Message.getD "" else "未知错误")⟩],
            [deviceKey]⟩) := by
  have ht : truthy (some key) = true := by simp [truthy, hne]
  have hd : truthy (some deviceKey) = true := by simp [truthy, hbound]
  constructor
  · intro hc
    simp [wakeupLogin, ht, hfind, hd, hdak, hreply, hc]
  · intro hc updateFails
    simp [wakeupLogin, ht, hfind, hd, hdak, hreply, hc]

/-- Witness for C19: the account `key-bob` with device key `dak`, the gateway replying
`Code` 200 with data. -/
theorem wakeupLogin_reply_witness :
    wakeupLogin (sampleGateway (.reply ⟨some 200, none, some "session"⟩)) false false
        1700000000000 (storeWithStatus "offline" (some "dak")) (some "key-bob")
      = ⟨{ storeWithStatus "offline" (some "dak") with
            wechat_accounts := (storeWithStatus "offline" (some "dak")).wechat_accounts.map
              (fun a =>
                if a.auth_key = "key-bob" then
                  ⟨a.id, a.auth_key, a.device_auth_key, a.nickname, a.username, a.avatar,
                    "online", some 1700000000000, a.created_at, 1700000000000,
                    a.is_active, a.qr_code_url, a.user_id⟩
                else a) },
          [⟨200, .wakeupOk "唤醒登录成功" (some "session")⟩], ["dak"]⟩ :=
  (wakeupLogin_reply (sampleGateway (.reply ⟨some 200, none, some "session"⟩))
    1700000000000 (storeWithStatus "offline" (some "dak")) "key-bob" "dak"
    ⟨1, "key-bob", some "dak", some "bob-bot", none, none, "offline", none, 0, 0, true,
      none, some 2⟩
    ⟨some 200, none, some "session"⟩ (by decide) (by decide) rfl (by decide) rfl).1 rfl

/-- C20: for every list of roles and every identity `req.user`, `requireRole(roles)`
calls the next handler if and only if the identity's role is a member of `roles`;
otherwise it sends the single response 403 and does not call the next handler. -/
theorem requireRole_next_iff_member (roles : List String) (user : Identity) :
    (requireRole roles user = none ↔ user.role ∈ roles) ∧
    (user.role ∉ roles → requireRole roles user = some ⟨403, .error "权限不足"⟩) := by
  constructor
  · by_cases h : user.role ∈ roles <;> simp [requireRole, h]
  · intro h
    simp [requireRole, h]

/-! ## The bearer gate (`server.js`) -/

/-- C21 as stated fails: the header `Bearer bad` carries a token that fails verification,
and `authenticateToken` answers 403, not 401. -/
theorem authenticateToken_bad_token :
    authenticateToken sampleVerify (some "Bearer bad")
      = .error ⟨403, .plain "Forbidden"⟩ := by
  rfl

/-- C21 (amended): `authenticateToken` answers 401 and does not call the next handler when
the Authorization header is absent or has no (non-empty) second space-separated segment;
it answers 403 and does not call the next handler when that segment is a token that fails
verification; and it calls the next handler, with `req.user` the verified payload, exactly
when the segment is a token that verifies. -/
theorem authenticateToken_cases (verify : String → Option Identity)
    (authHeader : Option String) :
    (truthy (bearerToken authHeader) = false →
      authenticateToken verify authHeader = .error ⟨401, .plain "Unauthorized"⟩) ∧
    (∀ token, bearerToken authHeader = some token → token ≠ "" → verify token = none →
      authenticateToken verify authHeader = .error ⟨403, .plain "Forbidden"⟩) ∧
    (∀ user, authenticateToken verify authHeader = .ok user ↔
      ∃ token, bearerToken authHeader = some token ∧ token ≠ "" ∧
        verify token = some user) ∧
    bearerToken none = none ∧ bearerToken (some "Bearer") = none := by
  refine ⟨?_, ?_, ?_, rfl, by decide⟩
  · intro h
    simp [authenticateToken, h]
  · intro token ht hne hv
    have htr : truthy (some token) = true := by simp [truthy, hne]
    simp [authenticateToken, ht, htr, hv]
  · intro user
    constructor
    · intro h
      unfold authenticateToken at h
      cases hb : bearerToken authHeader with
      | none => simp [hb, truthy] at h
      | some token =>
        by_cases hne : token = ""
        · simp [hb, truthy, hne] at h
        · have htr : truthy (some token) = true := by simp [truthy, hne]
          simp only [hb, htr, Option.getD_some] at h
          cases hv : verify token with
          | none => simp [hv] at h
          | some u =>
            simp [hv] at h
            exact ⟨token, rfl, hne, h ▸ hv⟩
    · rintro ⟨token, ht, hne, hv⟩
      have htr : truthy (some token) = true := by simp [truthy, hne]
      simp [authenticateToken, ht, htr, hv]

/-! ## The admin status update (`server.js`) -/

theorem map_if_false {α : Type} (c : α → Prop) [DecidablePred c] (f : α → α) (l : List α)
    (h : ∀ a ∈ l, ¬ c a) : l.map (fun a => if c a then f a else a) = l := by
  induction l with
  | nil => rfl
  | cons x xs ih =>
    have hx : ¬ c x := h x (List.mem_cons_self x xs)
    have hxs : ∀ a ∈ xs, ¬ c a := fun a ha => h a (List.mem_cons_of_mem x ha)
    simp [hx, ih hxs]

/-- C23 as stated fails: account 1 exists with status `online`, and the body supplies the
non-empty status `failed`; the update is rejected by the `CHECK` on `status`, the answer is
500 and the account keeps its status. -/
theorem adminPutStatus_rejected_status :
    adminPutStatus false 1700000000000 (storeWithStatus "online" none) 1
        ⟨some "failed", none, none, none, none⟩
      = ⟨storeWithStatus "online" none, [⟨500, .error "更新微信账号失败"⟩]⟩ := by
  decide

/-- C23 (amended): for every account id and every request body whose status, when it
supplies a non-empty one, is one of `online`, `offline`, `waiting`, `scanning` (the values
the schema admits), the database answering the statement: when no account has that id the
admin status PUT answers 404 and returns the store unchanged; otherwise it answers 200,
and in every account with that id each of status, nickname, username, avatar and
qr_code_url is replaced exactly when the body supplies a non-empty value for it,
`last_login` is set to `now` exactly when the supplied status is `online`, `updated_at` is
set to `now`, and id, auth_key, device_auth_key, created_at, is_active and user_id are
kept; every other account and table is unchanged. -/
theorem adminPutStatus_frame (now : Time) (s : Store) (id : Nat) (body : AdminStatusBody)
    (hstatus : truthy body.status = true → statusAllowed (body.status.getD "") = true) :
    ((∀ a ∈ s.wechat_accounts, a.id ≠ id) →
      adminPutStatus false now s id body = ⟨s, [⟨404, .error "微信账号不存在"⟩]⟩) ∧
    ((∃ a ∈ s.wechat_accounts, a.id = id) →
      adminPutStatus false now s id body
        = ⟨{ s with wechat_accounts := s.wechat_accounts.map (fun a =>
              if a.id = id then
                ⟨a.id, a.auth_key, a.device_auth_key,
                  if truthy body.nickname then body.nickname else a.nickname,
                  if truthy body.username then body.username else a.username,
                  if truthy body.avatar then body.avatar else a.avatar,
                  if truthy body.status then body.status.getD "" else a.status,
                  if body.status = some "online" then some now else a.last_login,
                  a.created_at, now, a.is_active,
                  if truthy body.qr_code_url then body.qr_code_url else a.qr_code_url,
                  a.user_id⟩
              else a) },
            [⟨200, .message "更新成功"⟩]⟩) := by
  constructor
  · intro h
    have h0 : (s.wechat_accounts.filter (fun a => decide (a.id = id))).length = 0 := by
      rw [filter_length_eq_zero_iff]
      intro a ha
      simpa using h a ha
    simp [adminPutStatus, h0, reply]
  · rintro ⟨a, ha, hid⟩
    have h0 : ¬ (s.wechat_accounts.filter (fun a => decide (a.id = id))).length = 0 := by
      rw [filter_length_eq_zero_iff]
      intro h
      have := h a ha
      simp [hid] at this
    have hs : ¬ (truthy body.status = true ∧ ¬ statusAllowed (body.status.getD "") = true) := by
      rintro ⟨h1, h2⟩
      exact h2 (hstatus h1)
    simp only [adminPutStatus, if_neg h0, if_neg hs, adminStatusRow]
    simp

/-- Witness for C23: account 1 goes `online` with a new nickname. -/
theorem adminPutStatus_frame_witness :
    adminPutStatus false 1700000000000 (storeWithStatus "offline" (some "dak")) 1
        ⟨some "online", some "renamed", none, none, none⟩
      = ⟨{ storeWithStatus "offline" (some "dak") with
            wechat_accounts :=
              (storeWithStatus "offline" (some "dak")).wechat_accounts.map (fun a =>
                if a.id = 1 then
                  ⟨a.id, a.auth_key, a.device_auth_key,
                    if truthy (some "renamed") then some "renamed" else a.nickname,
                    if truthy none then none else a.username,
                    if truthy none then none else a.avatar,
                    if truthy (some "online") then (some "online").getD "" else a.status,
                    if some "online" = some "online" then some 1700000000000
                      else a.last_login,
                    a.created_at, 1700000000000, a.is_active,
                    if truthy none then none else a.qr_code_url,
                    a.user_id⟩
                else a) },
          [⟨200, .message "更新成功"⟩]⟩ :=
  (adminPutStatus_frame 1700000000000 (storeWithStatus "offline" (some "dak")) 1
    ⟨some "online", some "renamed", none, none, none⟩ (by decide)).2 (by decide)

/-! ## Updating and listing users (`server/server.js`) -/

/-- C26 (evaluation at the failing input): no user of the sample store has id 99, and the
admin update of user 99 (by admin 1) answers 200 with the success message, where a missing
user calls for 404; the store is unchanged. -/
theorem updateUser_unknown_id :
    updateUserRoute false ⟨false, false, false⟩ 1700000000000 sampleStore (some 1) 99
        ⟨"ghost", some "ghost@example.com", "user", none⟩
      = ⟨sampleStore, [⟨200, .message "用户信息更新成功"⟩]⟩ := by
  decide

/-- What the handler of `PUT /api/admin/users/:userId` does, for every store, admitted
admin request and user id, the database answering the statements: when the new username is
held by a user with a different id, or the new email is, it answers 400 and returns the
store unchanged; otherwise it answers 200, and every users row with that id gets the new
username, email, role and phone (and `updated_at`), every other row and table being kept.
When no stored user has that id the store stays as it was and the answer is still 200 (or
400 on a username or email held by some user): the handler has no branch that answers
404. -/
theorem updateUser_cases (now : Time) (s : Store) (hdr : Option Nat) (userId : Nat)
    (body : UserUpdateBody)
    (hauth : adminAuth false s hdr = none) :
    ((∃ u ∈ s.users, u.id ≠ userId ∧
        (u.username = body.username ∨ (u.email.isSome ∧ u.email = body.email))) →
      ∃ msg, updateUserRoute false ⟨false, false, false⟩ now s hdr userId body
        = ⟨s, [⟨400, .error msg⟩]⟩) ∧
    ((¬ ∃ u ∈ s.users, u.id ≠ userId ∧
        (u.username = body.username ∨ (u.email.isSome ∧ u.email = body.email))) →
      updateUserRoute false ⟨false, false, false⟩ now s hdr userId body
        = ⟨{ s with users := s.users.map (fun u =>
              if u.id = userId then
                ⟨u.id, body.username, u.password, body.role, body.email, body.phone,
                  u.created_at, currentTimestamp now⟩
              else u) },
            [⟨200, .message "用户信息更新成功"⟩]⟩) ∧
    ((∀ u ∈ s.users, u.id ≠ userId) →
      (updateUserRoute false ⟨false, false, false⟩ now s hdr userId body).store = s ∧
      ∀ r ∈ (updateUserRoute false ⟨false, false, false⟩ now s hdr userId body).responses,
        r.status ≠ 404) := by
  have hroute : updateUserRoute false ⟨false, false, false⟩ now s hdr userId body
      = updateUserHandler ⟨false, false, false⟩ now s userId body := by
    simp [updateUserRoute, hauth]
  rw [hroute]
  refine ⟨?_, ?_, ?_⟩
  · rintro ⟨u, hu, hid, hc⟩
    unfold updateUserHandler
    simp only [reply]
    cases h1 : s.users.find? (fun u => u.username = body.username ∧ u.id ≠ userId) with
    | some _ => exact ⟨"用户名已被使用", by simp⟩
    | none =>
      cases h2 : s.users.find? (fun u => u.email.isSome ∧ u.email = body.email ∧
          u.id ≠ userId) with
      | some _ => exact ⟨"邮箱已被使用", by simp⟩
      | none =>
        exfalso
        rw [List.find?_eq_none] at h1 h2
        have a1 := h1 u hu
        have a2 := h2 u hu
        rcases hc with hc | ⟨hc1, hc2⟩
        · exact a1 (decide_eq_true ⟨hc, hid⟩)
        · exact a2 (decide_eq_true ⟨hc1, hc2, hid⟩)
  · intro hno
    have h1 : s.users.find? (fun u => decide (u.username = body.username ∧ u.id ≠ userId))
        = none := by
      rw [List.find?_eq_none]
      intro u hu
      have : ¬ (u.username = body.username ∧ u.id ≠ userId) :=
        fun h => hno ⟨u, hu, h.2, Or.inl h.1⟩
      simpa using this
    have h2 : s.users.find? (fun u => decide (u.email.isSome ∧ u.email = body.email ∧
        u.id ≠ userId)) = none := by
      rw [List.find?_eq_none]
      intro u hu
      have : ¬ (u.email.isSome ∧ u.email = body.email ∧ u.id ≠ userId) :=
        fun h => hno ⟨u, hu, h.2.2, Or.inr ⟨h.1, h.2.1⟩⟩
      simpa using this
    unfold updateUserHandler
    simp only [h1, h2]
    simp
  · intro hnone
    have hmap : s.users.map (fun u =>
        if u.id = userId then
          { u with username := body.username, email := body.email, role := body.role,
                   phone := body.phone, updated_at := currentTimestamp now }
        else u) = s.users :=
      map_if_false (fun u => u.id = userId) _ s.users hnone
    unfold updateUserHandler
    simp only [reply, hmap]
    cases s.users.find? (fun u => u.username = body.username ∧ u.id ≠ userId) with
    | some _ => simp
    | none =>
      cases s.users.find? (fun u => u.email.isSome ∧ u.email = body.email ∧
          u.id ≠ userId) with
      | some _ => simp
      | none => simp

/-- An instance of `updateUser_cases`: admin 1 of the sample store renames user 2. -/
theorem updateUser_cases_witness :
    updateUserRoute false ⟨false, false, false⟩ 1700000000000 sampleStore (some 1) 2
        ⟨"robert", some "bob@example.com", "agent", some "555"⟩
      = ⟨{ sampleStore with users := sampleStore.users.map (fun u =>
            if u.id = 2 then
              ⟨u.id, "robert", u.password, "agent", some "bob@example.com", some "555",
                u.created_at, currentTimestamp 1700000000000⟩
            else u) },
          [⟨200, .message "用户信息更新成功"⟩]⟩ :=
  (updateUser_cases 1700000000000 sampleStore (some 1) 2
    ⟨"robert", some "bob@example.com", "agent", some "555"⟩ (by decide)).2.1 (by decide)

/-- C27 (evaluation at the failing input): admin 1 is the only admin of the sample store;
the admitted request `PUT /api/admin/users/1` with the role `user` (username and email as
stored) answers 200, and afterwards no user has the role `admin`. -/
theorem updateUser_demotes_last_admin :
    adminCount sampleStore = 1 ∧
    (updateUserRoute false ⟨false, false, false⟩ 1700000000000 sampleStore (some 1) 1
        ⟨"root", some "root@example.com", "user", none⟩).responses
      = [⟨200, .message "用户信息更新成功"⟩] ∧
    adminCount (updateUserRoute false ⟨false, false, false⟩ 1700000000000 sampleStore
        (some 1) 1 ⟨"root", some "root@example.com", "user", none⟩).store = 0 := by
  decide

/-- C30 (evaluation at the failing input): the listing `GET /api/admin/users` of
`server/server.js`, asked by admin 1 of the sample store, answers with every column of
every user, the stored password hashes `hash:root` and `hash:bob` among them; the listing
of `server.js` on the same store carries no password. -/
theorem listUsers_carries_password :
    listUsersRoute false false sampleStore (some 1)
      = ⟨sampleStore,
          [⟨200, .userList
            [⟨1, "root", some "hash:root", "admin", some "root@example.com", none, 0,
                some 0⟩,
             ⟨2, "bob", some "hash:bob", "user", some "bob@example.com", none, 0,
                some 0⟩]⟩]⟩ ∧
    adminListUsers false sampleStore
      = ⟨sampleStore,
          [⟨200, .userList
            [⟨1, "root", none, "admin", some "root@example.com", none, 0, none⟩,
             ⟨2, "bob", none, "user", some "bob@example.com", none, 0, none⟩]⟩]⟩ := by
  decide

/-! ## Responses that do not match what was done -/

/-- For a `count` that is no natural number, with distinct fresh tokens and no failing
insert, the callbacks of gen-auth-key insert their rows and never call `res.json`. -/
theorem genFold_silent (uuid : Nat → String) (insertFails : Nat → Bool)
    (stamp : Nat → Time) (s : Store) (userId : Nat) (count : ℚ) (days : Int) (expiresAt : Time) (n : Nat)
    (hcount : ∀ m : ℕ, (m : ℚ) ≠ count)
    (hdistinct : ∀ i < n, ∀ j < n, uuid i = uuid j → i = j)
    (hok : ∀ i < n, insertFails i = false)
    (hfresh : ∀ i < n, uuid i ∉ s.auth_keys.map (fun k => k.key_value))
    (k : Nat) (hk : k ≤ n) :
    ∃ rows : List AuthKey, ∃ seq : Nat,
      (List.range k).foldl
        (genCallback uuid insertFails stamp userId count days expiresAt) ⟨s, [], []⟩
      = ⟨{ s with auth_keys := s.auth_keys ++ rows, seq_auth_keys := seq },
          (List.range k).map uuid, []⟩ ∧
      rows.map (fun r => r.key_value) = (List.range k).map uuid := by
  induction k with
  | zero => exact ⟨[], s.seq_auth_keys, by simp, rfl⟩
  | succ k ih =>
    obtain ⟨rows, seq, hfold, hkeys⟩ := ih (by omega)
    have hkn : k < n := by omega
    rw [List.range_succ, List.foldl_append, hfold]
    simp only [List.foldl_cons, List.foldl_nil]
    have hnew : uuid k ∉ (s.auth_keys ++ rows).map (fun r => r.key_value) := by
      rw [List.map_append, List.mem_append, hkeys]
      rintro (h | h)
      · exact hfresh k hkn h
      · obtain ⟨j, hj, hjk⟩ := List.mem_map.mp h
        have hjlt : j < k := List.mem_range.mp hj
        have := hdistinct j (by omega) k hkn hjk
        omega
    refine ⟨rows ++ [{ id := nextId ((s.auth_keys ++ rows).map (fun r => r.id)) seq,
                       key_value := uuid k, user_id := userId, days := days,
                       created_at := currentTimestamp (stamp k),
                       expires_at := expiresAt, is_active := true }],
            nextId ((s.auth_keys ++ rows).map (fun r => r.id)) seq, ?_, ?_⟩
    · have hlen : ((List.range k).map uuid ++ [uuid k]).length = k + 1 := by simp
      have hq : ¬ (((k + 1 : ℕ) : ℚ) = count) := hcount (k + 1)
      simp only [genCallback, insertAuthKey, hok k hkn, hnew, hlen, if_neg hq]
      simp [List.range_succ]
    · simp [List.range_succ, hkeys]

/-- C28 (evaluation at the failing inputs): gen-auth-key asked by admin 1 on the empty
store.  With `count` 0 no insert is issued and `res.json` is never called; with `count`
5/2 three inserts succeed and `res.json` is never called, since the length of `keys` never
equals `count`; with `count` 2 and both inserts failing `res.json` is called twice. -/
theorem genAuthKey_response_count :
    (genAuthKey sampleUuid (fun _ => false) (fun _ => 1700000000000) 1700000000000 Store.empty 1
        ⟨some 0, some 30⟩).responses = [] ∧
    (genAuthKey sampleUuid (fun _ => false) (fun _ => 1700000000000) 1700000000000 Store.empty 1
        ⟨some (5 / 2), some 30⟩).responses = [] ∧
    ((genAuthKey sampleUuid (fun _ => false) (fun _ => 1700000000000) 1700000000000 Store.empty 1
        ⟨some (5 / 2), some 30⟩).store.auth_keys.map (fun k => k.key_value))
      = ["key-0", "key-1", "key-2"] ∧
    (genAuthKey sampleUuid (fun _ => true) (fun _ => 1700000000000) 1700000000000 Store.empty 1
        ⟨some 2, some 30⟩).responses
      = [⟨500, .error "生成授权码失败"⟩, ⟨500, .error "生成授权码失败"⟩] := by
  have h52 : ⌈(5 / 2 : ℚ)⌉₊ = 3 := by
    rw [Nat.ceil_eq_iff (by norm_num)]
    norm_num
  have h2 : ⌈(2 : ℚ)⌉₊ = 2 := by
    rw [Nat.ceil_eq_iff (by norm_num)]
    norm_num
  have hcount : ∀ m : ℕ, (m : ℚ) ≠ 5 / 2 := by
    intro m h
    have h2m : ((2 * m : ℕ) : ℚ) = ((5 : ℕ) : ℚ) := by
      push_cast
      linarith
    have := Nat.cast_injective h2m
    omega
  obtain ⟨rows, seq, hfold, hkeys⟩ :=
    genFold_silent sampleUuid (fun _ => false) (fun _ => 1700000000000) Store.empty 1
      (5 / 2) 30
      1702592000000 3 hcount (by decide) (by decide) (by decide) 3 le_rfl
  have hres : genAuthKey sampleUuid (fun _ => false) (fun _ => 1700000000000) 1700000000000 Store.empty 1
        ⟨some (5 / 2), some 30⟩
      = ⟨{ Store.empty with auth_keys := Store.empty.auth_keys ++ rows,
                            seq_auth_keys := seq }, []⟩ := by
    have he : expiresAtISO 1700000000000 30 = some 1702592000000 := by decide
    simp only [genAuthKey, Option.getD_some, h52, he]
    rw [hfold]
    simp
  refine ⟨?_, ?_, ?_, ?_⟩
  · simp [genAuthKey]
  · rw [hres]
  · rw [hres]
    simp only [Store.empty, List.nil_append, hkeys]
    decide
  · norm_num [genAuthKey, h2, expiresAtISO, msPerDay, maxTime, List.range_succ,
      genCallback, insertAuthKey, Store.empty]

/-- C29 (evaluation at the failing input): user 2 owns the account `key-bob` in status
`scanned_confirming`; simulate-confirm with `success` true, the update being rejected by
the database, first sends the success response reporting status `online` and the device
key `sim_dak_u1`, and the store is returned as it was: the account is still
`scanned_confirming` with no device key. -/
theorem simulateConfirm_reports_before_persisting :
    simulateConfirm "u1" ⟨none, some "disk I/O error"⟩ 1700000000000
        (storeWithStatus "scanned_confirming" none) 2 "key-bob" true
      = ⟨storeWithStatus "scanned_confirming" none,
          [⟨200, .transition "模拟确认成功, 状态: online" "key-bob" "online"
              (some "sim_dak_u1")⟩,
           ⟨500, .error "模拟确认失败: disk I/O error"⟩]⟩ := by
  decide

/-! ## Accounts of other users (`server/server.js`) -/

theorem store_wechat_accounts_self (s : Store) :
    { s with wechat_accounts := s.wechat_accounts } = s := by
  cases s
  rfl

theorem filter_eq_self_of_forall {α : Type} (p : α → Bool) (l : List α)
    (h : ∀ a ∈ l, p a = true) : l.filter p = l := by
  rw [List.filter_eq_self]
  exact h

/-- C22: let `a` be a WeChat account whose `user_id` is not the requester `userId`, the
only row with its id and the only row with its (non-empty) `auth_key`.  Each user-scoped
operation of `server/server.js` addressed at `a` (get by id, delete, status update, QR
request, simulate-scan, simulate-confirm, create-or-update supplying the `auth_key` of `a`)
returns the store unchanged, whatever the database does with its statements; and when the
database rejects nothing, what it sends is fixed by the operation alone: nothing or the
404 error of the operation (400 for a status update without parameters, 500 for the
refused insert of create-or-update), never a field of `a`. -/
theorem foreign_account_untouched (db : Handle) (s : Store) (userId : Nat)
    (a : WechatAccount) (ha : a ∈ s.wechat_accounts)
    (hother : a.user_id ≠ some userId)
    (hid : ∀ x ∈ s.wechat_accounts, x.id = a.id → x = a)
    (hkey : ∀ x ∈ s.wechat_accounts, x.auth_key = a.auth_key → x = a)
    (hne : a.auth_key ≠ "") :
    (∀ fails, (userGetWechatAccount db fails s userId a.id).store = s) ∧
    userGetWechatAccount db false s userId a.id
      = db.andThen s (reply s 404 (.error "微信账号不存在")) ∧
    (∀ fails, (userDeleteWechatAccount db fails s userId a.id).store = s) ∧
    userDeleteWechatAccount db false s userId a.id
      = db.andThen s (reply s 404 (.error "微信账号不存在")) ∧
    (∀ fails now body, (userPutStatus db fails now s userId a.id body).store = s) ∧
    (∀ now body, userPutStatus db false now s userId a.id body
      = if !truthy body.status && !truthy body.qr_code_url then
          reply s 400 (.error "缺少更新参数")
        else db.andThen s (reply s 404 (.error "微信账号不存在"))) ∧
    (∀ uuid f now, (qrWakeupLogin uuid f now s userId (some a.auth_key)).store = s) ∧
    (∀ uuid now, qrWakeupLogin uuid FlowFaults.ok now s userId (some a.auth_key)
      = reply s 404 (.error "无效的 auth_key 或微信账号不存在")) ∧
    (∀ f now, (simulateScan f now s userId a.auth_key).store = s) ∧
    (∀ now, simulateScan FlowFaults.ok now s userId a.auth_key
      = reply s 404 (.error "微信账号不存在")) ∧
    (∀ uuid f now success,
      (simulateConfirm uuid f now s userId a.auth_key success).store = s) ∧
    (∀ uuid now success, simulateConfirm uuid FlowFaults.ok now s userId a.auth_key success
      = reply s 404 (.error "微信账号不存在")) ∧
    (∀ uuid f stamp now body, body.auth_key = some a.auth_key →
      (userCreateWechatAccount db uuid f stamp now s userId body).store = s) ∧
    (∀ uuid stamp now body, body.auth_key = some a.auth_key →
      userCreateWechatAccount db uuid ⟨false, false, false, false⟩ stamp now s userId body
        = db.andThen s (reply s 500 (.error "创建微信账号失败"))) := by
  have nid : ∀ x ∈ s.wechat_accounts, ¬ (x.id = a.id ∧ x.user_id = some userId) := by
    rintro x hx ⟨h1, h2⟩
    rw [hid x hx h1] at h2
    exact hother h2
  have nkey : ∀ x ∈ s.wechat_accounts,
      ¬ (x.auth_key = a.auth_key ∧ x.user_id = some userId) := by
    rintro x hx ⟨h1, h2⟩
    rw [hkey x hx h1] at h2
    exact hother h2
  have find_id : s.wechat_accounts.find?
      (fun x => decide (x.id = a.id ∧ x.user_id = some userId)) = none :=
    find?_none_of_forall _ _ (fun x hx => decide_eq_false (nid x hx))
  have find_key : s.wechat_accounts.find?
      (fun x => decide (x.auth_key = a.auth_key ∧ x.user_id = some userId)) = none :=
    find?_none_of_forall _ _ (fun x hx => decide_eq_false (nkey x hx))
  have find_owned : s.wechat_accounts.find? (ownedBy a.auth_key userId) = none :=
    find?_none_of_forall _ _ (fun x hx => by
      have := nkey x hx
      simpa [ownedBy] using this)
  have filt_id : s.wechat_accounts.filter
      (fun x => decide (x.id = a.id ∧ x.user_id = some userId)) = [] := by
    rw [List.filter_eq_nil_iff]
    intro x hx
    simpa using nid x hx
  have filt_not : s.wechat_accounts.filter
      (fun x => decide (¬ (x.id = a.id ∧ x.user_id = some userId))) = s.wechat_accounts :=
    filter_eq_self_of_forall _ _ (fun x hx => decide_eq_true (nid x hx))
  have ht : truthy (some a.auth_key) = true := by simp [truthy, hne]
  have hmem : a.auth_key ∈ s.wechat_accounts.map (fun x => x.auth_key) :=
    List.mem_map.mpr ⟨a, ha, rfl⟩
  refine ⟨?_, ?_, ?_, ?_, ?_, ?_, ?_, ?_, ?_, ?_, ?_, ?_, ?_, ?_⟩
  · intro fails
    unfold userGetWechatAccount
    rw [find_id]
    cases db <;> cases fails <;> simp [Handle.andThen, reply]
  · unfold userGetWechatAccount
    rw [find_id]
    simp
  · intro fails
    unfold userDeleteWechatAccount
    rw [filt_not, filt_id, store_wechat_accounts_self]
    cases db <;> cases fails <;> simp [Handle.andThen, reply]
  · unfold userDeleteWechatAccount
    rw [filt_not, filt_id, store_wechat_accounts_self]
    simp
  · intro fails now body
    have hmap := map_if_false
      (fun x : WechatAccount => x.id = a.id ∧ x.user_id = some userId)
      (fun x => { x with
        status := if truthy body.status then body.status.getD "" else x.status
        qr_code_url := if truthy body.qr_code_url then body.qr_code_url else x.qr_code_url
        updated_at := now }) s.wechat_accounts nid
    simp only [userPutStatus, hmap, filt_id, store_wechat_accounts_self]
    cases db <;> cases fails <;> simp [Handle.andThen, reply] <;> split_ifs <;> rfl
  · intro now body
    have hmap := map_if_false
      (fun x : WechatAccount => x.id = a.id ∧ x.user_id = some userId)
      (fun x => { x with
        status := if truthy body.status then body.status.getD "" else x.status
        qr_code_url := if truthy body.qr_code_url then body.qr_code_url else x.qr_code_url
        updated_at := now }) s.wechat_accounts nid
    simp only [userPutStatus, hmap, filt_id, store_wechat_accounts_self]
    simp
  · intro uuid f now
    unfold qrWakeupLogin
    simp only [ht, Option.getD_some, find_owned]
    cases f.select <;> simp [reply]
  · intro uuid now
    unfold qrWakeupLogin
    simp [ht, find_owned, FlowFaults.ok]
  · intro f now
    unfold simulateScan
    rw [find_owned]
    cases f.select <;> simp [reply]
  · intro now
    unfold simulateScan
    rw [find_owned]
    simp [FlowFaults.ok]
  · intro uuid f now success
    unfold simulateConfirm
    rw [find_owned]
    cases f.select <;> simp [reply]
  · intro uuid now success
    unfold simulateConfirm
    rw [find_owned]
    simp [FlowFaults.ok]
  · intro uuid f stamp now body hb
    unfold userCreateWechatAccount
    simp only [hb, ht, Option.getD_some, find_key, insertOwnedWechatAccount, hmem, or_true,
      if_true]
    cases db <;> simp [Handle.andThen, reply]
    split_ifs <;> rfl
  · intro uuid stamp now body hb
    unfold userCreateWechatAccount
    simp only [hb, ht, Option.getD_some, find_key, insertOwnedWechatAccount, hmem, or_true,
      if_true]
    cases db <;> simp [Handle.andThen, reply]

/-- Witness for C22: admin 1 of the sample store asks for account 1, which belongs to
user 2. -/
theorem foreign_account_untouched_witness :
    userGetWechatAccount serverDb false sampleStore 1 1
      = serverDb.andThen sampleStore (reply sampleStore 404 (.error "微信账号不存在")) :=
  (foreign_account_untouched serverDb sampleStore 1
    ⟨1, "key-bob", none, some "bob-bot", none, none, "waiting", none, 0, 0, true, none,
      some 2⟩ (by decide) (by decide) (by decide) (by decide) (by decide)).2.1

/-! ## Invariants along the account operations of `server/server.js` -/

theorem mem_map_if {α : Type} (c : α → Prop) [DecidablePred c] (f : α → α) (l : List α)
    (b : α) (h : b ∈ l.map (fun a => if c a then f a else a)) :
    ∃ a ∈ l, b = a ∨ b = f a := by
  obtain ⟨a, ha, hb⟩ := List.mem_map.mp h
  refine ⟨a, ha, ?_⟩
  by_cases hc : c a
  · right; simpa [hc] using hb.symm
  · left; simpa [hc] using hb.symm

/-- What an account operation on the handle of `server/server.js` does to the owners: each
account afterwards has the `auth_key` and `user_id` of an account before, and the auth_keys
table is the old one, possibly followed by one row whose key value is the token drawn. -/
theorem accountOp_owners (op : AccountOp) (now : Time) (userId : Nat) (s : Store) :
    (∀ b ∈ (op.run serverDb now userId s).store.wechat_accounts,
      ∃ a ∈ s.wechat_accounts, b.auth_key = a.auth_key ∧ b.user_id = a.user_id) ∧
    ((op.run serverDb now userId s).store.auth_keys = s.auth_keys ∨
      ∃ uuid f stamp body row, op = .create uuid f stamp body ∧ row.key_value = uuid ∧
        (op.run serverDb now userId s).store.auth_keys = s.auth_keys ++ [row]) := by
  have same : ∀ b ∈ s.wechat_accounts,
      ∃ a ∈ s.wechat_accounts, b.auth_key = a.auth_key ∧ b.user_id = a.user_id :=
    fun b hb => ⟨b, hb, rfl, rfl⟩
  cases op with
  | create uuid f stamp body =>
    simp only [AccountOp.run, userCreateWechatAccount, serverDb, Handle.andThen]
    split
    · exact ⟨same, Or.inl rfl⟩
    · split
      · exact ⟨same, Or.inl rfl⟩
      · split
        · exact ⟨same, Or.inl rfl⟩
        · next s1 hk =>
          obtain ⟨id, hs1⟩ := insertAuthKey_keys _ _ _ _ _ _ _ _ hk
          have hacc : s1.wechat_accounts = s.wechat_accounts := by
            unfold insertAuthKey at hk
            split_ifs at hk
            simp only [Option.some.injEq] at hk
            subst hk
            rfl
          refine ⟨?_, Or.inr ⟨uuid, f, stamp, body, _, rfl, rfl, hs1⟩⟩
          simp only [hacc]
          exact same
  | putStatus updateFails id body =>
    simp only [AccountOp.run, userPutStatus, serverDb, Handle.andThen, reply]
    repeat' split
    all_goals first
      | exact ⟨same, Or.inl rfl⟩
      | exact ⟨fun b hb => same b (List.mem_of_mem_filter hb), Or.inl rfl⟩
      | (refine ⟨?_, Or.inl rfl⟩
         intro b hb
         obtain ⟨a, ha, hba⟩ := List.mem_map.mp hb
         refine ⟨a, ha, ?_⟩
         rw [← hba]
         split_ifs <;> exact ⟨rfl, rfl⟩)
  | delete deleteFails id =>
    simp only [AccountOp.run, userDeleteWechatAccount, serverDb, Handle.andThen]
    repeat' split
    all_goals first
      | exact ⟨same, Or.inl rfl⟩
      | exact ⟨fun b hb => same b (List.mem_of_mem_filter hb), Or.inl rfl⟩
  | qr uuid f auth_key =>
    simp only [AccountOp.run, qrWakeupLogin, reply]
    repeat' split
    all_goals first
      | exact ⟨same, Or.inl rfl⟩
      | exact ⟨fun b hb => same b (List.mem_of_mem_filter hb), Or.inl rfl⟩
      | (refine ⟨?_, Or.inl rfl⟩
         intro b hb
         obtain ⟨a, ha, hba⟩ := List.mem_map.mp hb
         refine ⟨a, ha, ?_⟩
         rw [← hba]
         split_ifs <;> exact ⟨rfl, rfl⟩)
  | scan f auth_key =>
    simp only [AccountOp.run, simulateScan, reply]
    repeat' split
    all_goals first
      | exact ⟨same, Or.inl rfl⟩
      | exact ⟨fun b hb => same b (List.mem_of_mem_filter hb), Or.inl rfl⟩
      | (refine ⟨?_, Or.inl rfl⟩
         intro b hb
         obtain ⟨a, ha, hba⟩ := List.mem_map.mp hb
         refine ⟨a, ha, ?_⟩
         rw [← hba]
         split_ifs <;> exact ⟨rfl, rfl⟩)
  | confirm uuid f auth_key success =>
    simp only [AccountOp.run, simulateConfirm, reply]
    repeat' split
    all_goals first
      | exact ⟨same, Or.inl rfl⟩
      | exact ⟨fun b hb => same b (List.mem_of_mem_filter hb), Or.inl rfl⟩
      | (refine ⟨?_, Or.inl rfl⟩
         intro b hb
         obtain ⟨a, ha, hba⟩ := List.mem_map.mp hb
         refine ⟨a, ha, ?_⟩
         rw [← hba]
         split_ifs <;> exact ⟨rfl, rfl⟩)

theorem accountOp_ownerConsistent (op : AccountOp) (now : Time) (userId : Nat) (s : Store)
    (h : ownerConsistent s) (hfresh : freshToken s op) :
    ownerConsistent (op.run serverDb now userId s).store := by
  obtain ⟨hacc, hkeys⟩ := accountOp_owners op now userId s
  intro b hb k hk hkb
  obtain ⟨a, ha, hba1, hba2⟩ := hacc b hb
  rw [hba2]
  rcases hkeys with hsame | ⟨uuid, f, stamp, body, row, hop, hrow, happ⟩
  · rw [hsame] at hk
    exact h a ha k hk (by rw [hkb, hba1])
  · rw [happ] at hk
    rcases List.mem_append.mp hk with hk | hk
    · exact h a ha k hk (by rw [hkb, hba1])
    · exfalso
      simp only [List.mem_singleton] at hk
      subst hk
      subst hop
      apply hfresh
      rw [← hrow, hkb, hba1]
      exact List.mem_map.mpr ⟨a, ha, rfl⟩

/-- With a handle that runs the callbacks, create-or-update attaches a key of another user
to the requester: user 2 of the sample store supplies `key-root`, the key of admin 1. -/
theorem create_with_callbacks_breaks_owners :
    ¬ ownerConsistent
      (userCreateWechatAccount Handle.sqlite "key-new" ⟨false, false, false, false⟩
        1700000000042 1700000000000 sampleStore 2
        ⟨some "taken", none, some "key-root", none, none, none, none⟩).store := by
  intro h
  have := h ⟨2, "key-root", none, some "taken", none, none, "online", none, 1700000000000,
      1700000000000, true, none, some 2⟩ (by decide)
    ⟨1, "key-root", 1, 30, 0, 2592000000, true⟩ (by decide) rfl
  simp at this

/-- C24: start from any store in which every WeChat account whose `auth_key` names an auth
key has the `user_id` of that key (the empty store is one).  In every store reachable from
it through the WeChat-account operations of `server/server.js` (fresh create,
create-or-update with a supplied `auth_key`, status update, delete, and the login-flow
requests), run by any users on the handle of `server/server.js` with the token of a create
request held by no account, the same holds. -/
theorem owner_consistency_preserved (s0 s : Store) (h0 : ownerConsistent s0)
    (h : AccountReachable serverDb freshToken s0 s) : ownerConsistent s := by
  induction h with
  | init => exact h0
  | step op now userId _ hok ih => exact accountOp_ownerConsistent op now userId _ ih hok

/-- Witness for C24: the sample store after user 2 sets account 1 to `offline`. -/
theorem owner_consistency_preserved_witness :
    ownerConsistent
      ((AccountOp.putStatus false 1 ⟨some "offline", none⟩).run serverDb 1700000000000 2
        sampleStore).store :=
  owner_consistency_preserved sampleStore _ (by unfold ownerConsistent; decide)
    (AccountReachable.step (AccountOp.putStatus false 1 ⟨some "offline", none⟩)
      1700000000000 2 AccountReachable.init trivial)

theorem insertAuthKey_accounts (fails : Bool) (now : Time) (s s1 : Store) (kv : String)
    (userId : Nat) (days : Int) (expiresAt : Time)
    (h : insertAuthKey fails now s kv userId days expiresAt = some s1) :
    s1.wechat_accounts = s.wechat_accounts := by
  unfold insertAuthKey at h
  split_ifs at h
  simp only [Option.some.injEq] at h
  subst h
  rfl

theorem insertOwnedWechatAccount_statuses (fails : Bool) (now : Time) (s s1 : Store)
    (ak : String) (dak nick un av : Option String) (status : String) (userId id : Nat)
    (h : insertOwnedWechatAccount fails now s ak dak nick un av status userId
      = some (s1, id))
    (hs : statusesKnown s) (hstatus : knownStatus status = true) : statusesKnown s1 := by
  unfold insertOwnedWechatAccount at h
  split_ifs at h
  simp only [Option.some.injEq, Prod.mk.injEq] at h
  obtain ⟨h, _⟩ := h
  subst h
  intro b hb
  rcases List.mem_append.mp hb with hb | hb
  · exact hs b hb
  · simp only [List.mem_singleton] at hb
    subst hb
    exact hstatus

theorem ite_store (c : Prop) [Decidable c] (s1 : Store) (r1 r2 : List Response) :
    (if c then (⟨s1, r1⟩ : Result) else ⟨s1, r2⟩).store = s1 := by
  split <;> rfl

theorem statuses_map (l : List WechatAccount) (c : WechatAccount → Prop)
    [DecidablePred c] (f : WechatAccount → WechatAccount)
    (hl : ∀ a ∈ l, knownStatus a.status = true)
    (hf : ∀ a ∈ l, knownStatus (f a).status = true) :
    ∀ b ∈ l.map (fun a => if c a then f a else a), knownStatus b.status = true := by
  intro b hb
  obtain ⟨a, ha, hba⟩ := List.mem_map.mp hb
  rw [← hba]
  split_ifs
  · exact hf a ha
  · exact hl a ha

theorem userCreate_statuses (db : Handle) (uuid : String) (f : CreateAccountFaults)
    (stamp now : Time) (s : Store) (userId : Nat) (body : AccountBody)
    (hs : statusesKnown s)
    (hok : truthy body.status = true → knownStatus (body.status.getD "") = true) :
    statusesKnown (userCreateWechatAccount db uuid f stamp now s userId body).store := by
  have hstatus : knownStatus
      (if truthy body.status = true then body.status.getD "online" else "online") = true := by
    split_ifs with ht
    · have := hok ht
      cases hb : body.status with
      | none => simp [truthy, hb] at ht
      | some v => simpa [hb] using this
    · decide
  unfold userCreateWechatAccount
  simp only [reply]
  cases db with
  | wrapper =>
    simp only [Handle.andThen]
    repeat' split
    all_goals first
      | exact hs
      | (intro b hb
         rw [insertAuthKey_accounts _ _ _ _ _ _ _ _ (by assumption)] at hb
         exact hs b hb)
  | sqlite =>
    simp only [Handle.andThen]
    by_cases hkey : truthy body.auth_key = true
    · rw [if_pos hkey]
      by_cases hsel : f.selectAccount = true
      · rw [if_pos hsel]
        exact hs
      · rw [if_neg hsel]
        split
        · by_cases hupd : f.updateAccount = true
          · rw [if_pos hupd]
            exact hs
          · rw [if_neg hupd]
            exact statuses_map _
              (fun a => a.auth_key = body.auth_key.getD "" ∧ a.user_id = some userId) _ hs
              (fun _ _ => hstatus)
        · split
          · exact hs
          · next h =>
            exact insertOwnedWechatAccount_statuses _ _ _ _ _ _ _ _ _ _ _ _ h hs hstatus
    · rw [if_neg hkey]
      split
      · exact hs
      · split
        · exact hs
        · next s1 hk =>
          have hs1 : statusesKnown s1 := by
            intro b hb
            rw [insertAuthKey_accounts _ _ _ _ _ _ _ _ hk] at hb
            exact hs b hb
          split
          · exact hs1
          · next h =>
            exact insertOwnedWechatAccount_statuses _ _ _ _ _ _ _ _ _ _ _ _ h hs1
              (by decide)

theorem accountOp_statusesKnown (db : Handle) (op : AccountOp) (now : Time) (userId : Nat)
    (s : Store) (hs : statusesKnown s) (hok : suppliesKnownStatus s op) :
    statusesKnown (op.run db now userId s).store := by
  cases op with
  | create uuid f stamp body =>
    exact userCreate_statuses db uuid f stamp now s userId body hs hok
  | putStatus updateFails id body =>
    have hsupplied : truthy body.status = true →
        knownStatus (body.status.getD "") = true := hok
    have hrow : ∀ a ∈ s.wechat_accounts, knownStatus
        (if truthy body.status = true then body.status.getD "" else a.status) = true := by
      intro a ha
      split_ifs with ht
      · exact hsupplied ht
      · exact hs a ha
    simp only [AccountOp.run, userPutStatus, reply]
    by_cases h1 : (!truthy body.status && !truthy body.qr_code_url) = true
    · rw [if_pos h1]
      exact hs
    · rw [if_neg h1]
      cases updateFails with
      | true =>
        rw [if_pos rfl]
        cases db <;> exact hs
      | false =>
        rw [if_neg (by decide)]
        cases db with
        | sqlite =>
          simp only [Handle.andThen]
          rw [ite_store]
          exact statuses_map _ (fun a => a.id = id ∧ a.user_id = some userId) _ hs hrow
        | wrapper =>
          exact statuses_map _ (fun a => a.id = id ∧ a.user_id = some userId) _ hs hrow
  | delete deleteFails id =>
    cases db <;> simp only [AccountOp.run, userDeleteWechatAccount, Handle.andThen, reply]
    all_goals
      repeat' split
      all_goals first
        | exact hs
        | exact fun b hb => hs b (List.mem_of_mem_filter hb)
  | qr uuid f auth_key =>
    simp only [AccountOp.run, qrWakeupLogin, reply]
    repeat' split
    all_goals first
      | exact hs
      | exact statuses_map _ _ _ hs
          (fun _ _ => (by decide : knownStatus "scanning" = true))
  | scan f auth_key =>
    simp only [AccountOp.run, simulateScan, reply]
    repeat' split
    all_goals first
      | exact hs
      | exact statuses_map _ _ _ hs
          (fun _ _ => (by decide : knownStatus "scanned_confirming" = true))
  | confirm uuid f auth_key success =>
    simp only [AccountOp.run, simulateConfirm, reply]
    cases success <;> repeat' split
    all_goals first
      | exact hs
      | exact statuses_map _ _ _ hs (fun _ _ => rfl)

/-- C25 as stated fails: the sample store holds one account, in `waiting`; its owner sends
the status update with `status: "banana"` on the handle of `server/server.js`, and the
account is stored with the status `banana`, which is none of the six.  Where the callbacks
of the handlers run, the same status is reached from the empty store by one
create-or-update request that supplies it. -/
theorem status_put_stores_any_status :
    statusesKnown (storeWithStatus "waiting" none) ∧
    AccountReachable serverDb anyOp (storeWithStatus "waiting" none)
      ((AccountOp.putStatus false 1 ⟨some "banana", none⟩).run serverDb 1700000000000 2
        (storeWithStatus "waiting" none)).store ∧
    ((AccountOp.putStatus false 1 ⟨some "banana", none⟩).run serverDb 1700000000000 2
        (storeWithStatus "waiting" none)).store.wechat_accounts.map (fun a => a.status)
      = ["banana"] ∧
    ¬ statusesKnown
      ((AccountOp.putStatus false 1 ⟨some "banana", none⟩).run serverDb 1700000000000 2
        (storeWithStatus "waiting" none)).store ∧
    ¬ statusesKnown
      ((AccountOp.create "tok" ⟨false, false, false, false⟩ 1700000000042
          ⟨none, none, some "key-new", none, none, some "banana", none⟩).run
        .sqlite 1700000000000 2 Store.empty).store := by
  refine ⟨by unfold statusesKnown; decide,
    AccountReachable.step _ _ _ AccountReachable.init trivial, by decide,
    by unfold statusesKnown; decide, by unfold statusesKnown; decide⟩

/-- C25 (amended): start from any store in which every WeChat account has one of the six
statuses waiting, scanning, scanned_confirming, online, offline, failed.  In every store
reachable from it through the WeChat-account operations of `server/server.js` (create,
create-or-update, status update, delete, QR request, simulate-scan, simulate-confirm) in
which every status a create-or-update or a status update supplies is one of the six, every
account has one of the six statuses; this holds whether the callbacks of the handlers run
or not. -/
theorem known_statuses_preserved (db : Handle) (s0 s : Store) (h0 : statusesKnown s0)
    (h : AccountReachable db suppliesKnownStatus s0 s) : statusesKnown s := by
  induction h with
  | init => exact h0
  | step op now userId _ hok ih => exact accountOp_statusesKnown db op now userId _ ih hok

/-- Witness for C25: the sample store, its account in `waiting`, after the owner sets the
account to `offline`. -/
theorem known_statuses_preserved_witness :
    statusesKnown
      ((AccountOp.putStatus false 1 ⟨some "offline", none⟩).run serverDb 1700000000000 2
        (storeWithStatus "waiting" none)).store :=
  known_statuses_preserved serverDb (storeWithStatus "waiting" none) _
    (by unfold statusesKnown; decide)
    (AccountReachable.step (AccountOp.putStatus false 1 ⟨some "offline", none⟩)
      1700000000000 2 AccountReachable.init (fun _ => by decide))

end ZCloud
